import Mathlib

/-!
A shallow embedding of the activity-aggregation and report-scraping logic of
the `reporting-git` repository (two Python source files:
`github_repo_user_report.py` and `generate_team_index.py`), together with
theorems settling the specification claims about that logic.

Modelling conventions:
* Machine integers are `Nat`/`Int`; all counters in the program are
  non-negative counts, modelled as `Nat`.
* Timestamps that the Python code only ever parses and compares (never
  renders back) are modelled as `Nat` in a strictly monotone encoding of the
  parsed datetimes, so `datetime` comparison becomes `≤` on `Nat`.
* A field the Python code reads with `.get(...)` and then tests for
  truthiness is an `Option`, with `none` standing for an absent, `null` or
  empty value.
* Remote HTTP traffic is modelled by response values: a status code plus the
  decoded payload the Python code would read from the body.  The analyzer is
  then a pure function of those responses, which is exactly the dataflow of
  the sequential, synchronous Python code.
-/

namespace ReportGit

/-- Python truthiness of an optional string field: `None` and the empty
string are falsy, any other string is truthy. -/
def truthy : Option String → Bool
  | none => false
  | some s => !(s == (""))

/-- Python `s.lower()` (the inputs here are ASCII logins). -/
def pylower (s : String) : String := String.mk (s.data.map Char.toLower)

/-- Python `s[:n]`: the first `n` code points of `s`. -/
def pyslice (n : Nat) (s : String) : String := String.mk (s.data.take n)

/-! ## Pipeline 1: the per-user repository report (`github_repo_user_report.py`) -/

/-- `GitHubRepoUserAnalyzer._get_pr_size` (lines 53-66): categorize PR size
based on total changes (additions + deletions). -/
def getPrSize (changes : Nat) : String :=
  if changes < 10 then ("xs")
  else if changes < 30 then ("s")
  else if changes < 100 then ("m")
  else if changes < 500 then ("l")
  else if changes < 1000 then ("xl")
  else ("xxl")

/-- The detailed PR object returned by the per-PR detail endpoint, with the
fields `analyze_activity` reads (lines 329-348). -/
structure FetchedPR where
  number : Nat
  title : String
  html_url : String
  state : String
  created_at : String
  updated_at : String
  closed_at : Option String
  merged_at : Option String
  additions : Nat
  deletions : Nat
  changed_files : Nat
  commits : Nat
deriving DecidableEq, Repr

/-- The `pr_data` dict built in `analyze_activity` (lines 334-349). -/
structure PRData where
  number : Nat
  title : String
  url : String
  state : String
  created_at : String
  updated_at : String
  closed_at : Option String
  merged_at : Option String
  additions : Nat
  deletions : Nat
  total_changes : Nat
  size : String
  changed_files : Nat
  commits : Nat
deriving DecidableEq, Repr

def mkPRData (pr : FetchedPR) : PRData :=
  { number := pr.number
    title := pr.title
    url := pr.html_url
    state := pr.state
    created_at := pr.created_at
    updated_at := pr.updated_at
    closed_at := pr.closed_at
    merged_at := pr.merged_at
    additions := pr.additions
    deletions := pr.deletions
    total_changes := pr.additions + pr.deletions
    size := getPrSize (pr.additions + pr.deletions)
    changed_files := pr.changed_files
    commits := pr.commits }

/-- A raw review object from the per-PR reviews endpoint, after
`fetch_user_reviews` annotated it with the PR it belongs to
(lines 198-203).  `submitted_at` is the parsed submission timestamp,
`none` when the field is absent, `null` or empty. -/
structure FetchedReview where
  pr_number : Nat
  pr_title : String
  pr_url : String
  state : String
  submitted_at : Option Nat
  body : String
deriving DecidableEq, Repr

/-- The `review_data` dict built in `analyze_activity` (lines 379-386). -/
structure ReviewData where
  pr_number : Nat
  pr_title : String
  pr_url : String
  state : String
  submitted_at : Option Nat
  body : String
deriving DecidableEq, Repr

def mkReviewData (r : FetchedReview) : ReviewData :=
  { pr_number := r.pr_number
    pr_title := r.pr_title
    pr_url := r.pr_url
    state := r.state
    submitted_at := r.submitted_at
    body := pyslice 200 r.body }

/-- The review date filter of `analyze_activity` (lines 372-377): a review
with a truthy `submitted_at` is skipped when its parsed date is before the
window start; a review without one bypasses the filter. -/
def keepReview (since : Nat) (r : FetchedReview) : Bool :=
  match r.submitted_at with
  | none => true
  | some t => decide (since ≤ t)

/-- An issue object from the search endpoint, with the fields
`analyze_activity` reads (lines 395-419). -/
structure FetchedIssue where
  number : Nat
  title : String
  html_url : String
  state : String
  created_at : String
  updated_at : String
  closed_at : Option String
  comments : Nat
deriving DecidableEq, Repr

/-- The `issue_data` dict for issues opened (lines 396-405). -/
structure IssueData where
  number : Nat
  title : String
  url : String
  state : String
  created_at : String
  updated_at : String
  closed_at : Option String
  comments_count : Nat
deriving DecidableEq, Repr

def mkIssueData (i : FetchedIssue) : IssueData :=
  { number := i.number
    title := i.title
    url := i.html_url
    state := i.state
    created_at := i.created_at
    updated_at := i.updated_at
    closed_at := i.closed_at
    comments_count := i.comments }

/-- The `issue_data` dict for issues closed by the user (lines 411-419). -/
structure ClosedIssueData where
  number : Nat
  title : String
  url : String
  state : String
  created_at : String
  closed_at : Option String
  comments_count : Nat
deriving DecidableEq, Repr

def mkClosedIssueData (i : FetchedIssue) : ClosedIssueData :=
  { number := i.number
    title := i.title
    url := i.html_url
    state := i.state
    created_at := i.created_at
    closed_at := i.closed_at
    comments_count := i.comments }

/-- A raw issue comment after `fetch_user_issue_comments` annotated it with
its issue (lines 302-308).  `created_at` is the parsed creation timestamp,
`none` when absent, `null` or empty. -/
structure FetchedComment where
  issue_number : Nat
  issue_title : String
  issue_url : String
  issue_state : String
  created_at : Option Nat
  body : String
deriving DecidableEq, Repr

/-- The `comment_data` dict built in `analyze_activity` (lines 432-439). -/
structure CommentData where
  issue_number : Nat
  issue_title : String
  issue_url : String
  issue_state : String
  created_at : Option Nat
  body : String
deriving DecidableEq, Repr

def mkCommentData (c : FetchedComment) : CommentData :=
  { issue_number := c.issue_number
    issue_title := c.issue_title
    issue_url := c.issue_url
    issue_state := c.issue_state
    created_at := c.created_at
    body := pyslice 200 c.body }

/-- The comment date filter of `analyze_activity` (lines 426-430), the same
shape as the review filter. -/
def keepComment (since : Nat) (c : FetchedComment) : Bool :=
  match c.created_at with
  | none => true
  | some t => decide (since ≤ t)

/-- A commit object from the commits endpoint, with the fields
`analyze_activity` reads (lines 445-450). -/
structure FetchedCommit where
  sha : String
  message : String
  author_date : String
  html_url : String
deriving DecidableEq, Repr

/-- The `commit_data` dict (lines 445-450). -/
structure CommitData where
  sha : String
  message : String
  date : String
  url : String
deriving DecidableEq, Repr

/-- Python `s.split('\n')[0]`: everything before the first newline. -/
def firstLine (s : String) : String :=
  String.mk (s.data.takeWhile (fun c => !(c == '\n')))

def mkCommitData (c : FetchedCommit) : CommitData :=
  { sha := pyslice 7 c.sha
    message := firstLine c.message
    date := c.author_date
    url := c.html_url }

/-- The `pr_sizes` counter dict initialised in `__init__` (lines 43-50). -/
structure PRSizes where
  xs : Nat
  s : Nat
  m : Nat
  l : Nat
  xl : Nat
  xxl : Nat
deriving DecidableEq, Repr

/-- `self.stats["pr_sizes"][pr_size] += 1` (line 355). -/
def bumpSize (sz : PRSizes) (cls : String) : PRSizes :=
  if cls == ("xs") then { sz with xs := sz.xs + 1 }
  else if cls == ("s") then { sz with s := sz.s + 1 }
  else if cls == ("m") then { sz with m := sz.m + 1 }
  else if cls == ("l") then { sz with l := sz.l + 1 }
  else if cls == ("xl") then { sz with xl := sz.xl + 1 }
  else if cls == ("xxl") then { sz with xxl := sz.xxl + 1 }
  else sz

/-- The `self.stats` accumulator (lines 30-51), restricted to the categories
and roll-ups the program computes in `analyze_activity`. -/
structure Stats where
  pull_requests_opened : List PRData
  pull_requests_merged : List PRData
  pull_requests_closed : List PRData
  pull_requests_reviewed : List ReviewData
  issues_opened : List IssueData
  issues_closed : List ClosedIssueData
  issue_comments : List CommentData
  commits_authored : List CommitData
  pr_sizes : PRSizes
  total_additions : Nat
  total_deletions : Nat
  total_files_changed : Nat
  total_commits_in_prs : Nat
  total_reviews_given : Nat
  unique_prs_reviewed : Nat
deriving DecidableEq, Repr

def initStats : Stats :=
  { pull_requests_opened := []
    pull_requests_merged := []
    pull_requests_closed := []
    pull_requests_reviewed := []
    issues_opened := []
    issues_closed := []
    issue_comments := []
    commits_authored := []
    pr_sizes := { xs := 0, s := 0, m := 0, l := 0, xl := 0, xxl := 0 }
    total_additions := 0
    total_deletions := 0
    total_files_changed := 0
    total_commits_in_prs := 0
    total_reviews_given := 0
    unique_prs_reviewed := 0 }

/-- One iteration of the PR loop in `analyze_activity` (lines 328-364):
record the PR under "opened", bump the size counter and the commit count,
record it additionally under "merged" iff `merged_at` is truthy, else under
"closed" iff its state is `closed`, then accumulate the line/file totals. -/
def processPR (st : Stats) (pr : FetchedPR) : Stats :=
  let d := mkPRData pr
  let st1 : Stats :=
    { st with
      pull_requests_opened := st.pull_requests_opened ++ [d]
      total_commits_in_prs := st.total_commits_in_prs + d.commits
      pr_sizes := bumpSize st.pr_sizes d.size }
  let st2 : Stats :=
    if truthy pr.merged_at then
      { st1 with pull_requests_merged := st1.pull_requests_merged ++ [d] }
    else if pr.state == ("closed") then
      { st1 with pull_requests_closed := st1.pull_requests_closed ++ [d] }
    else st1
  { st2 with
    total_additions := st2.total_additions + pr.additions
    total_deletions := st2.total_deletions + pr.deletions
    total_files_changed := st2.total_files_changed + pr.changed_files }

def processPRs (prs : List FetchedPR) (st : Stats) : Stats :=
  prs.foldl processPR st

/-- The review loop of `analyze_activity` (lines 370-391): keep the reviews
that pass the date filter, then set `total_reviews_given` and
`unique_prs_reviewed` (`len(set(...))` is the number of distinct
`pr_number` values, i.e. the length of the deduplicated list). -/
def processReviews (since : Nat) (reviews : List FetchedReview) (st : Stats) : Stats :=
  let reviewed := st.pull_requests_reviewed ++ (reviews.filter (keepReview since)).map mkReviewData
  { st with
    pull_requests_reviewed := reviewed
    total_reviews_given := reviewed.length
    unique_prs_reviewed := (reviewed.map (fun r => r.pr_number)).dedup.length }

/-- The issues-opened loop (lines 394-406). -/
def processIssues (issues : List FetchedIssue) (st : Stats) : Stats :=
  { st with issues_opened := st.issues_opened ++ issues.map mkIssueData }

/-- The issues-closed loop (lines 409-420). -/
def processClosedIssues (issues : List FetchedIssue) (st : Stats) : Stats :=
  { st with issues_closed := st.issues_closed ++ issues.map mkClosedIssueData }

/-- The issue-comment loop (lines 423-440), with the same date filter shape
as the review loop. -/
def processComments (since : Nat) (comments : List FetchedComment) (st : Stats) : Stats :=
  { st with issue_comments := st.issue_comments ++ (comments.filter (keepComment since)).map mkCommentData }

/-- The commits loop (lines 443-451). -/
def processCommits (commits : List FetchedCommit) (st : Stats) : Stats :=
  { st with commits_authored := st.commits_authored ++ commits.map mkCommitData }

/-! ### The fetch layer

Each fetcher receives the response(s) of the HTTP requests it performs and
returns the collection `analyze_activity` will iterate over.  A non-success
search response yields an empty collection (the fetcher logs and returns, or
breaks out of its page loop). -/

/-- One per-PR detail response inside `fetch_user_prs` (lines 96-101). -/
structure PRDetailResponse where
  status : Nat
  pr : FetchedPR
deriving DecidableEq, Repr

/-- `fetch_user_prs` (lines 68-103): a non-200 search response yields `[]`
(lines 82-86); otherwise each PR's detail is fetched and kept when that
request succeeded. -/
def fetch_user_prs (search_status : Nat) (details : List PRDetailResponse) : List FetchedPR :=
  if ¬ search_status = 200 then []
  else (details.filter (fun d => d.status == 200)).map (fun d => d.pr)

/-- The raw review objects of one per-PR reviews response, before the
user filter (lines 195-198). -/
structure RawReview where
  user_login : String
  state : String
  submitted_at : Option Nat
  body : String
deriving DecidableEq, Repr

/-- One searched PR inside a `fetch_user_reviews` page together with the
response of its reviews request (lines 190-203). -/
structure ReviewsOnPR where
  status : Nat
  pr_number : Nat
  pr_title : String
  pr_url : String
  reviews : List RawReview
deriving DecidableEq, Repr

/-- One page of the reviewed-PRs search (lines 175-185). -/
structure ReviewSearchPage where
  status : Nat
  items : List ReviewsOnPR
deriving DecidableEq, Repr

/-- The inner loop of `fetch_user_reviews` over the PRs of one page
(lines 190-203): for each PR whose reviews request succeeded, keep the
reviews whose author matches the analyzed user (case-insensitively) and
annotate them with the PR. -/
def reviewsFromPage (username : String) (items : List ReviewsOnPR) : List FetchedReview :=
  items.foldl
    (fun acc it =>
      if it.status == 200 then
        acc ++ ((it.reviews.filter (fun r => pylower r.user_login == pylower username)).map
          (fun r =>
            { pr_number := it.pr_number
              pr_title := it.pr_title
              pr_url := it.pr_url
              state := r.state
              submitted_at := r.submitted_at
              body := r.body }))
      else acc)
    []

/-- The page loop of `fetch_user_reviews` (lines 163-208): up to 3 pages; a
non-200 page response or an empty page breaks the loop, keeping what was
collected so far. -/
def fetchReviewsLoop (username : String) : Nat → List ReviewSearchPage → List FetchedReview
  | 0, _ => []
  | _ + 1, [] => []
  | fuel + 1, p :: rest =>
    if ¬ p.status = 200 then []
    else if p.items.isEmpty then []
    else reviewsFromPage username p.items ++ fetchReviewsLoop username fuel rest

def fetch_user_reviews (username : String) (pages : List ReviewSearchPage) : List FetchedReview :=
  fetchReviewsLoop username 3 pages

/-- `fetch_user_issues` (lines 232-257): a non-200 response yields `[]`. -/
def fetch_user_issues (status : Nat) (items : List FetchedIssue) : List FetchedIssue :=
  if ¬ status = 200 then [] else items

/-- One event from an issue's event history (lines 133-144). -/
structure IssueEvent where
  event : String
  actor_login : String
  created_at : Option Nat
deriving DecidableEq, Repr

/-- A candidate closed issue together with the response of its events
request (lines 130-147). -/
structure ClosedIssueCandidate where
  issue : FetchedIssue
  events_status : Nat
  events : List IssueEvent
deriving DecidableEq, Repr

/-- The per-event test of `fetch_user_closed_issues` (lines 139-147): a
`closed` event whose actor matches the user case-insensitively and whose
truthy timestamp is on or after the window start. -/
def closedByUser (username : String) (since : Nat) (e : IssueEvent) : Bool :=
  e.event == ("closed") && pylower e.actor_login == pylower username &&
    (match e.created_at with
     | some t => decide (since ≤ t)
     | none => false)

/-- `fetch_user_closed_issues` (lines 105-151): a non-200 search response
yields `[]`; otherwise keep the candidates whose events request succeeded
and whose history contains a qualifying `closed` event. -/
def fetch_user_closed_issues (username : String) (since : Nat) (status : Nat)
    (cands : List ClosedIssueCandidate) : List FetchedIssue :=
  if ¬ status = 200 then []
  else (cands.filter
    (fun c => c.events_status == 200 && c.events.any (closedByUser username since))).map
    (fun c => c.issue)

/-- The raw comment objects of one per-issue comments response, before the
user filter (lines 299-302). -/
structure RawComment where
  user_login : String
  created_at : Option Nat
  body : String
deriving DecidableEq, Repr

/-- One searched issue inside a `fetch_user_issue_comments` page together
with the response of its comments request (lines 294-308). -/
structure CommentsOnIssue where
  status : Nat
  issue_number : Nat
  issue_title : String
  issue_url : String
  issue_state : String
  comments : List RawComment
deriving DecidableEq, Repr

/-- One page of the commented-issues search (lines 279-289). -/
structure CommentSearchPage where
  status : Nat
  items : List CommentsOnIssue
deriving DecidableEq, Repr

/-- The inner loop of `fetch_user_issue_comments` over the issues of one
page (lines 294-308). -/
def commentsFromPage (username : String) (items : List CommentsOnIssue) : List FetchedComment :=
  items.foldl
    (fun acc it =>
      if it.status == 200 then
        acc ++ ((it.comments.filter (fun c => pylower c.user_login == pylower username)).map
          (fun c =>
            { issue_number := it.issue_number
              issue_title := it.issue_title
              issue_url := it.issue_url
              issue_state := it.issue_state
              created_at := c.created_at
              body := c.body }))
      else acc)
    []

/-- The page loop of `fetch_user_issue_comments` (lines 267-313). -/
def fetchCommentsLoop (username : String) : Nat → List CommentSearchPage → List FetchedComment
  | 0, _ => []
  | _ + 1, [] => []
  | fuel + 1, p :: rest =>
    if ¬ p.status = 200 then []
    else if p.items.isEmpty then []
    else commentsFromPage username p.items ++ fetchCommentsLoop username fuel rest

def fetch_user_issue_comments (username : String) (pages : List CommentSearchPage) : List FetchedComment :=
  fetchCommentsLoop username 3 pages

/-- `fetch_user_commits` (lines 210-230): a non-200 response yields `[]`. -/
def fetch_user_commits (status : Nat) (items : List FetchedCommit) : List FetchedCommit :=
  if ¬ status = 200 then [] else items

/-- All the responses one `analyze_activity` run receives, one group per
activity category. -/
structure FetchInputs where
  pr_search_status : Nat
  pr_details : List PRDetailResponse
  review_pages : List ReviewSearchPage
  issues_status : Nat
  issues_items : List FetchedIssue
  closed_search_status : Nat
  closed_candidates : List ClosedIssueCandidate
  comment_pages : List CommentSearchPage
  commits_status : Nat
  commits_items : List FetchedCommit
deriving DecidableEq, Repr

/-- `analyze_activity` (lines 315-451): fetch and fold every category, in
the source order, into the statistics accumulator.  `since` is the window
start (`end_date - timedelta(days=days)`, line 319) in the monotone
timestamp encoding. -/
def analyze_activity (username : String) (since : Nat) (inp : FetchInputs) : Stats :=
  let prs := fetch_user_prs inp.pr_search_status inp.pr_details
  let stA := processPRs prs initStats
  let stB := processReviews since (fetch_user_reviews username inp.review_pages) stA
  let stC := processIssues (fetch_user_issues inp.issues_status inp.issues_items) stB
  let stD := processClosedIssues
    (fetch_user_closed_issues username since inp.closed_search_status inp.closed_candidates) stC
  let stE := processComments since (fetch_user_issue_comments username inp.comment_pages) stD
  processCommits (fetch_user_commits inp.commits_status inp.commits_items) stE

/-! ## Pipeline 2: the team index builder (`generate_team_index.py`) -/

/-- Python `s.strip()`: drop whitespace from both ends. -/
def pystrip (s : String) : String :=
  String.mk (((s.data.dropWhile Char.isWhitespace).reverse.dropWhile Char.isWhitespace).reverse)

/-- Python `s.lstrip('@')`: drop every leading `'@'`. -/
def pylstripAt (s : String) : String :=
  String.mk (s.data.dropWhile (fun c => decide (c = '@')))

def pysplitAux (sep : Char) : List Char → List Char → List (List Char)
  | [], acc => [acc.reverse]
  | c :: cs, acc =>
    if c = sep then acc.reverse :: pysplitAux sep cs []
    else pysplitAux sep cs (c :: acc)

/-- Python `s.split(sep)` for a one-character separator: split on every
occurrence, never merging (`"a//b" ↦ ["a", "", "b"]`, `"" ↦ [""]`). -/
def pysplit (sep : Char) (l : List Char) : List (List Char) := pysplitAux sep l []

/-- One event dispatched by Python's `html.parser.HTMLParser` tokenizer to
the handler methods `ReportMetricsParser` overrides. -/
inductive HtmlEvent where
  | startTag (tag : String) (attrs : List (String × String))
  | endTag (tag : String)
  | dataText (s : String)
deriving DecidableEq, Repr

/-- `dict(attrs).get(k)`: the value of the last binding of `k`. -/
def dictGet (attrs : List (String × String)) (k : String) : Option String :=
  (attrs.reverse.find? (fun kv => decide (kv.1 = k))).map (fun kv => kv.2)

/-- Python `d[k] = v` on an insertion-ordered dict kept as an association
list: overwrite in place when the key exists, else append. -/
def dictInsert (m : List (String × String)) (k v : String) : List (String × String) :=
  if m.any (fun kv => decide (kv.1 = k)) then
    m.map (fun kv => if kv.1 = k then (k, v) else kv)
  else m ++ [(k, v)]

/-- The mutable state of `ReportMetricsParser` (lines 18-32). -/
structure ReportMetricsParser where
  in_repo_div : Bool
  in_username_div : Bool
  in_metric_card : Bool
  in_metric_label : Bool
  in_metric_value : Bool
  current_label : Option String
  metrics : List (String × String)
  username : Option String
  repo_owner : Option String
  repo_name : Option String
deriving DecidableEq, Repr

def initParser : ReportMetricsParser :=
  { in_repo_div := false
    in_username_div := false
    in_metric_card := false
    in_metric_label := false
    in_metric_value := false
    current_label := none
    metrics := []
    username := none
    repo_owner := none
    repo_name := none }

/-- `ReportMetricsParser.handle_starttag` (lines 34-53). -/
def handle_starttag (st : ReportMetricsParser) (tag : String)
    (attrs : List (String × String)) : ReportMetricsParser :=
  let cls := dictGet attrs ("class")
  let st1 := if tag = ("div") ∧ cls = some ("repo") then { st with in_repo_div := true } else st
  let st2 :=
    if tag = ("div") ∧ cls = some ("username") then { st1 with in_username_div := true } else st1
  let st3 :=
    if tag = ("div") ∧ cls = some ("metric-card") then { st2 with in_metric_card := true } else st2
  if st3.in_metric_card = true then
    if tag = ("div") ∧ cls = some ("metric-label") then { st3 with in_metric_label := true }
    else if tag = ("div") ∧ cls = some ("metric-value") then { st3 with in_metric_value := true }
    else st3
  else st3

/-- `ReportMetricsParser.handle_endtag` (lines 55-67). -/
def handle_endtag (st : ReportMetricsParser) (tag : String) : ReportMetricsParser :=
  if tag = ("div") then
    if st.in_repo_div = true then { st with in_repo_div := false }
    else if st.in_username_div = true then { st with in_username_div := false }
    else if st.in_metric_label = true then { st with in_metric_label := false }
    else if st.in_metric_value = true then { st with in_metric_value := false }
    else if st.in_metric_card = true then
      { st with in_metric_card := false, current_label := none }
    else st
  else st

/-- `ReportMetricsParser.handle_data` (lines 69-89): strip the chunk, drop
it when empty, then extract repo (`owner/repo` split on `/`, kept only when
it has exactly two parts), username (leading `@` stripped), or a metric
label/value pair (the value is recorded only under a truthy current
label). -/
def handle_data (st : ReportMetricsParser) (raw : String) : ReportMetricsParser :=
  let d := pystrip raw
  if d = ("") then st
  else
    let st1 :=
      if st.in_repo_div = true then
        match pysplit '/' d.data with
        | [a, b] => { st with repo_owner := some (String.mk a), repo_name := some (String.mk b) }
        | _ => st
      else st
    let st2 :=
      if st1.in_username_div = true then { st1 with username := some (pylstripAt d) } else st1
    if st2.in_metric_label = true then { st2 with current_label := some d }
    else if st2.in_metric_value = true ∧ truthy st2.current_label = true then
      { st2 with metrics := dictInsert st2.metrics (st2.current_label.getD ("")) d }
    else st2

def stepEvent (st : ReportMetricsParser) (e : HtmlEvent) : ReportMetricsParser :=
  match e with
  | HtmlEvent.startTag tag attrs => handle_starttag st tag attrs
  | HtmlEvent.endTag tag => handle_endtag st tag
  | HtmlEvent.dataText d => handle_data st d

def stepList (st : ReportMetricsParser) (es : List HtmlEvent) : ReportMetricsParser :=
  es.foldl stepEvent st

/-- `HTMLParser.feed` on a fresh `ReportMetricsParser` (lines 98-99). -/
def feed (es : List HtmlEvent) : ReportMetricsParser := stepList initParser es

/-- All five nesting flags of the parser are off. -/
def flagsClear (st : ReportMetricsParser) : Prop :=
  st.in_repo_div = false ∧ st.in_username_div = false ∧ st.in_metric_card = false ∧
    st.in_metric_label = false ∧ st.in_metric_value = false

/-- A start tag that turns one of the parser's top-level flags on: a `div`
with class `repo`, `username` or `metric-card`. -/
def markerStart : HtmlEvent → Bool
  | HtmlEvent.startTag tag attrs =>
    decide (tag = ("div")) &&
      (decide (dictGet attrs ("class") = some ("repo")) ||
       decide (dictGet attrs ("class") = some ("username")) ||
       decide (dictGet attrs ("class") = some ("metric-card")))
  | _ => false

/-- Events that never touch a marker class. -/
def inertEvents (es : List HtmlEvent) : Bool := es.all (fun e => !markerStart e)

/-! ### The rendered HTML report as an event stream -/

/-- The decimal digit `d` (`d < 10`) as a character. -/
def digitToChar (d : Nat) : Char := Char.ofNat (48 + d)

/-- Python `str(n)` for a natural number: its decimal digit string. -/
def natToString (n : Nat) : String :=
  if n = 0 then ("0")
  else String.mk (((Nat.digits 10 n).reverse).map digitToChar)

/-- One metric card of the report template: an outer `metric-card` div, a
`metric-label` div holding the label text, a `metric-value` div holding the
value text, and (for the two collaboration cards that have one) a
`size-description` div. -/
def metricCardEvents (attrs : List (String × String)) (label value : String)
    (descr : Option String) : List HtmlEvent :=
  [ HtmlEvent.startTag ("div") attrs
  , HtmlEvent.startTag ("div") [(("class"), ("metric-label"))]
  , HtmlEvent.dataText label
  , HtmlEvent.endTag ("div")
  , HtmlEvent.startTag ("div") [(("class"), ("metric-value"))]
  , HtmlEvent.dataText value
  , HtmlEvent.endTag ("div") ] ++
  (match descr with
   | some d =>
     [ HtmlEvent.startTag ("div") [(("class"), ("size-description"))]
     , HtmlEvent.dataText d
     , HtmlEvent.endTag ("div") ]
   | none => []) ++
  [ HtmlEvent.endTag ("div") ]

/-- The `<head>` of the report (lines 609-943): document metadata, the
title, and the embedded style sheet `cssText` (a fixed string the scraper
never reacts to). -/
def headDocEvents (cssText username : String) : List HtmlEvent :=
  [ HtmlEvent.startTag ("html") [(("lang"), ("en"))]
  , HtmlEvent.startTag ("head") []
  , HtmlEvent.startTag ("meta") [(("charset"), ("UTF-8"))]
  , HtmlEvent.startTag ("meta")
      [(("name"), ("viewport")), (("content"), ("width=device-width, initial-scale=1.0"))]
  , HtmlEvent.startTag ("title") []
  , HtmlEvent.dataText (("Repository Activity Report - @") ++ username)
  , HtmlEvent.endTag ("title")
  , HtmlEvent.startTag ("style") []
  , HtmlEvent.dataText cssText
  , HtmlEvent.endTag ("style")
  , HtmlEvent.endTag ("head") ]

/-- The report header (lines 944-963): the `repo` and `username` marker
divs and the free-text `meta` div (`metaText` is the period/generated
line). -/
def bodyHeaderEvents (owner repo username metaText : String) : List HtmlEvent :=
  [ HtmlEvent.startTag ("body") []
  , HtmlEvent.startTag ("div") [(("class"), ("container"))]
  , HtmlEvent.startTag ("div") [(("class"), ("header"))]
  , HtmlEvent.startTag ("h1") []
  , HtmlEvent.dataText ("📊 Repository Activity Report")
  , HtmlEvent.endTag ("h1")
  , HtmlEvent.startTag ("div") [(("class"), ("repo"))]
  , HtmlEvent.dataText (owner ++ ("/") ++ repo)
  , HtmlEvent.endTag ("div")
  , HtmlEvent.startTag ("div") [(("class"), ("username"))]
  , HtmlEvent.dataText (("@") ++ username)
  , HtmlEvent.endTag ("div")
  , HtmlEvent.startTag ("div") [(("class"), ("meta"))]
  , HtmlEvent.dataText metaText
  , HtmlEvent.endTag ("div")
  , HtmlEvent.endTag ("div") ]

/-- The top metrics grid (lines 965-982): PRs Merged, Lines Added, Lines
Deleted, Commits in PRs. -/
def topMetricsGridEvents (st : Stats) : List HtmlEvent :=
  [ HtmlEvent.startTag ("div") [(("class"), ("metrics-grid"))] ] ++
  metricCardEvents [(("class"), ("metric-card")), (("style"), ("background: yellow"))]
    ("✅ PRs Merged") (natToString st.pull_requests_merged.length) none ++
  metricCardEvents [(("class"), ("metric-card")), (("style"), ("background: transparent"))]
    ("📈 Lines Added") (("+") ++ natToString st.total_additions) none ++
  metricCardEvents [(("class"), ("metric-card")), (("style"), ("background: transparent"))]
    ("📉 Lines Deleted") (("-") ++ natToString st.total_deletions) none ++
  metricCardEvents [(("class"), ("metric-card")), (("style"), ("background: transparent"))]
    ("💾 Commits in PRs") (natToString st.total_commits_in_prs) none ++
  [ HtmlEvent.endTag ("div") ]

/-- One card of the size-distribution chart (lines 993-1034). -/
def sizeCardEvents (badgeCls badgeText valStyle value descrText : String) : List HtmlEvent :=
  [ HtmlEvent.startTag ("div") [(("class"), ("size-card"))]
  , HtmlEvent.startTag ("div") [(("class"), ("size-label"))]
  , HtmlEvent.startTag ("span") [(("class"), badgeCls)]
  , HtmlEvent.dataText badgeText
  , HtmlEvent.endTag ("span")
  , HtmlEvent.endTag ("div")
  , HtmlEvent.startTag ("div") [(("class"), ("size-value")), (("style"), valStyle)]
  , HtmlEvent.dataText value
  , HtmlEvent.endTag ("div")
  , HtmlEvent.startTag ("div") [(("class"), ("size-description"))]
  , HtmlEvent.dataText descrText
  , HtmlEvent.endTag ("div")
  , HtmlEvent.endTag ("div") ]

/-- The size-distribution section (lines 984-1036); none of its element
classes is a marker class, so the scraper ignores it entirely. -/
def sizeSectionEvents (st : Stats) : List HtmlEvent :=
  [ HtmlEvent.startTag ("div") [(("class"), ("section"))]
  , HtmlEvent.startTag ("h2") [(("class"), ("section-title"))]
  , HtmlEvent.startTag ("span") []
  , HtmlEvent.dataText ("📏")
  , HtmlEvent.endTag ("span")
  , HtmlEvent.dataText ("Pull Request Size Distribution")
  , HtmlEvent.endTag ("h2")
  , HtmlEvent.startTag ("p")
      [(("style"), ("color: #6c757d; margin-bottom: 20px; font-size: 0.95em;"))]
  , HtmlEvent.startTag ("em") []
  , HtmlEvent.dataText
      ("Based on total changes (additions + deletions). Size categories match OSSInsight standards.")
  , HtmlEvent.endTag ("em")
  , HtmlEvent.endTag ("p")
  , HtmlEvent.startTag ("div") [(("class"), ("pr-size-chart"))] ] ++
  sizeCardEvents ("badge badge-xs badge-size") ("XS") ("color: oklch(from #10b981 l c h);")
    (natToString st.pr_sizes.xs) ("< 10 changes") ++
  sizeCardEvents ("badge badge-s badge-size") ("S") ("color: oklch(from #3b82f6 l c h);")
    (natToString st.pr_sizes.s) ("10-29 changes") ++
  sizeCardEvents ("badge badge-m badge-size") ("M") ("color: oklch(from #f59e0b l c h);")
    (natToString st.pr_sizes.m) ("30-99 changes") ++
  sizeCardEvents ("badge badge-l badge-size") ("L") ("color: oklch(from #f97316 l c h);")
    (natToString st.pr_sizes.l) ("100-499 changes") ++
  sizeCardEvents ("badge badge-xl badge-size") ("XL") ("color: oklch(from #ef4444 l c h);")
    (natToString st.pr_sizes.xl) ("500-999 changes") ++
  sizeCardEvents ("badge badge-xxl badge-size") ("XXL") ("color: oklch(from #991b1b l c h);")
    (natToString st.pr_sizes.xxl) ("≥ 1000 changes") ++
  [ HtmlEvent.endTag ("div"), HtmlEvent.endTag ("div") ]

/-- The collaboration section (lines 1038-1066): Reviews Given (with its
unique-PRs description), Issues Opened, Issues Closed, Issue Comments (with
its unique-issues description). -/
def collabSectionEvents (st : Stats) : List HtmlEvent :=
  [ HtmlEvent.startTag ("div") [(("class"), ("section"))]
  , HtmlEvent.startTag ("h2") [(("class"), ("section-title"))]
  , HtmlEvent.startTag ("span") []
  , HtmlEvent.dataText ("🤝")
  , HtmlEvent.endTag ("span")
  , HtmlEvent.dataText ("Other repository collaboration")
  , HtmlEvent.endTag ("h2")
  , HtmlEvent.startTag ("p")
      [(("style"), ("color: #6c757d; margin-bottom: 20px; font-size: 0.95em;"))]
  , HtmlEvent.startTag ("em") []
  , HtmlEvent.dataText
      ("Authoring, QA-related work, documentation and general collab can be represented here.")
  , HtmlEvent.endTag ("em")
  , HtmlEvent.endTag ("p")
  , HtmlEvent.startTag ("div") [(("class"), ("metrics-grid"))] ] ++
  metricCardEvents [(("class"), ("metric-card"))] ("👀 Reviews Given")
    (natToString st.total_reviews_given)
    (some (natToString st.unique_prs_reviewed ++ (" unique PRs"))) ++
  metricCardEvents [(("class"), ("metric-card"))] ("🐛 Issues Opened")
    (natToString st.issues_opened.length) none ++
  metricCardEvents [(("class"), ("metric-card"))] ("✅ Issues Closed")
    (natToString st.issues_closed.length) none ++
  metricCardEvents [(("class"), ("metric-card"))] ("💬 Issue Comments")
    (natToString st.issue_comments.length)
    (some (natToString ((st.issue_comments.map (fun c => c.issue_number)).dedup.length) ++
      (" unique issues"))) ++
  [ HtmlEvent.endTag ("div"), HtmlEvent.endTag ("div") ]

/-- The closing tags of the document (lines 1279-1283). -/
def closingEvents : List HtmlEvent :=
  [ HtmlEvent.endTag ("div"), HtmlEvent.endTag ("body"), HtmlEvent.endTag ("html") ]

/-- The `html.parser` event stream of `_generate_html_report`
(lines 596-1284).  The `<!DOCTYPE html>` declaration and the inter-tag
whitespace runs of the f-string template are omitted: the former is not
dispatched to any handler the scraper overrides, and the latter strip to
the empty string and are discarded by `handle_data`.  `cssText` is the
fixed embedded style sheet (text inside `<style>`, which the scraper never
extracts), `metaText` the period/generated line of the `meta` div, `tail`
the event stream of the optional per-record sections (PR cards, issue
cards, reviews, comments, commits; lines 1069-1277), all of whose elements
carry only non-marker classes (`pr-card`, `pr-title`, `badge`, …). -/
def reportHtmlEvents (cssText metaText owner repo username : String) (st : Stats)
    (tail : List HtmlEvent) : List HtmlEvent :=
  headDocEvents cssText username ++
  bodyHeaderEvents owner repo username metaText ++
  topMetricsGridEvents st ++
  sizeSectionEvents st ++
  collabSectionEvents st ++
  tail ++ closingEvents

/-! ### Metric extraction and the per-user summary -/

/-- Contiguous sublist test: does `pat` occur somewhere in the list? -/
def isSubList (pat : List Char) : List Char → Bool
  | [] => pat.isEmpty
  | c :: cs => pat.isPrefixOf (c :: cs) || isSubList pat cs

/-- Python `pat in s`: substring containment. -/
def containsSub (pat s : String) : Bool := isSubList pat.data s.data

/-- `re.sub(r'[^\d+\-,]', '', s)` (line 383): keep only digits, signs and
commas. -/
def clean_value (s : String) : String :=
  String.mk (s.data.filter (fun c => c.isDigit || c == '+' || c == '-' || c == ','))

/-- `re.sub(r'[^\d]', '', s)` (line 446): keep only digits. -/
def digit_only (s : String) : String := String.mk (s.data.filter Char.isDigit)

def parseDigitsList (l : List Char) : Nat :=
  l.foldl (fun a c => a * 10 + (c.toNat - 48)) 0

/-- Python `int(s)` on the strings this program feeds it: an optional
leading minus sign followed by decimal digits. -/
def pyInt (s : String) : Int :=
  match s.data with
  | '-' :: rest => -(parseDigitsList rest : Int)
  | _ => (parseDigitsList s.data : Int)

/-- The row-level `get_metric_value` (lines 379-387): scan the label→value
mapping in insertion order, return the cleaned value of the first label
containing the pattern, with `"0"` when nothing matches or nothing numeric
remains. -/
def get_metric_value (metrics : List (String × String)) (pat : String) : String :=
  match metrics with
  | [] => ("0")
  | (k, v) :: rest =>
    if containsSub pat k then
      if clean_value v = ("") then ("0") else clean_value v
    else get_metric_value rest pat

/-- The summary-level `get_metric_value` (lines 442-448): same scan, but
digits-only cleaning followed by `int(...)`, with `0` as default. -/
def get_metric_value_int (metrics : List (String × String)) (pat : String) : Int :=
  match metrics with
  | [] => 0
  | (k, v) :: rest =>
    if containsSub pat k then
      if digit_only v = ("") then 0 else pyInt (digit_only v)
    else get_metric_value_int rest pat

/-- One scraped report row (`parse_report_file`, lines 115-121). -/
structure ScrapedReport where
  filename : String
  date : String
  username : String
  repo : String
  metrics : List (String × String)
deriving DecidableEq, Repr

/-- One `user_summary` entry (line 435): `{'prs_merged': 0, 'date': None}`
is the defaultdict initial value. -/
structure UserSummary where
  prs_merged : Int
  date : Option String
deriving DecidableEq, Repr

/-- `user_summary[username]` on the defaultdict: the stored entry, or the
default. -/
def summaryFind (m : List (String × UserSummary)) (u : String) : UserSummary :=
  match m.find? (fun kv => decide (kv.1 = u)) with
  | some kv => kv.2
  | none => { prs_merged := 0, date := none }

/-- Storing back into the (insertion-ordered) defaultdict: overwrite the
binding of `u` in place when present (keys are unique in a dict), else
append. -/
def summaryStore : List (String × UserSummary) → String → UserSummary →
    List (String × UserSummary)
  | [], u, s => [(u, s)]
  | kv :: rest, u, s =>
    if kv.1 = u then (u, s) :: rest else kv :: summaryStore rest u s

/-- Python `<` on strings: lexicographic comparison by code point. -/
def pyStrLt : List Char → List Char → Bool
  | [], [] => false
  | [], _ :: _ => true
  | _ :: _, [] => false
  | a :: as, b :: bs =>
    if a.toNat < b.toNat then true
    else if b.toNat < a.toNat then false
    else pyStrLt as bs

def pyLt (a b : String) : Bool := pyStrLt a.data b.data

/-- `a ≤ b` for Python strings: `¬ (b < a)`. -/
def pyLe (a b : String) : Bool := !(pyLt b a)

/-- The date update of the summary loop (lines 454-455): keep the larger
date under Python's lexicographic string `>`. -/
def maxDateUpd (cur : Option String) (d : String) : Option String :=
  match cur with
  | none => some d
  | some c => if pyLt c d = true then some d else some c

/-- One iteration of the summary loop (lines 437-455): add the report's
merged-PR metric to the user's total and keep the most recent date. -/
def summaryStep (m : List (String × UserSummary)) (r : ScrapedReport) :
    List (String × UserSummary) :=
  let cur := summaryFind m r.username
  let cur1 : UserSummary :=
    { cur with prs_merged := cur.prs_merged + get_metric_value_int r.metrics ("PRs Merged") }
  let cur2 : UserSummary := { cur1 with date := maxDateUpd cur1.date r.date }
  summaryStore m r.username cur2

/-- The whole summary loop of `generate_index_html` (lines 434-455).  The
in-place sort at line 132 only permutes the rows it ranges over; both the
per-user sum and the per-user maximum below are invariant under that. -/
def user_summary (reports : List ScrapedReport) : List (String × UserSummary) :=
  reports.foldl summaryStep []

/-! ### Concrete example runs (used to instantiate the theorems below) -/

/-- A run in which every request succeeds and returns nothing. -/
def emptyInputs : FetchInputs :=
  { pr_search_status := 200
    pr_details := []
    review_pages := []
    issues_status := 200
    issues_items := []
    closed_search_status := 200
    closed_candidates := []
    comment_pages := []
    commits_status := 200
    commits_items := [] }

/-- A merged, closed PR. -/
def examplePRMerged : FetchedPR :=
  { number := 1
    title := ("Add parser")
    html_url := ("https://example.invalid/pr/1")
    state := ("closed")
    created_at := ("2024-01-02T00:00:00Z")
    updated_at := ("2024-01-03T00:00:00Z")
    closed_at := some ("2024-01-03T00:00:00Z")
    merged_at := some ("2024-01-03T00:00:00Z")
    additions := 3
    deletions := 4
    changed_files := 1
    commits := 2 }

/-- A closed, unmerged PR. -/
def examplePRClosed : FetchedPR :=
  { number := 2
    title := ("Fix typo")
    html_url := ("https://example.invalid/pr/2")
    state := ("closed")
    created_at := ("2024-01-04T00:00:00Z")
    updated_at := ("2024-01-05T00:00:00Z")
    closed_at := some ("2024-01-05T00:00:00Z")
    merged_at := none
    additions := 30
    deletions := 0
    changed_files := 2
    commits := 1 }

/-- An open PR. -/
def examplePROpen : FetchedPR :=
  { number := 3
    title := ("WIP")
    html_url := ("https://example.invalid/pr/3")
    state := ("open")
    created_at := ("2024-01-06T00:00:00Z")
    updated_at := ("2024-01-06T00:00:00Z")
    closed_at := none
    merged_at := none
    additions := 1200
    deletions := 5
    changed_files := 9
    commits := 4 }

def examplePRInputs : FetchInputs :=
  { emptyInputs with
      pr_details :=
        [ { status := 200, pr := examplePRMerged }
        , { status := 200, pr := examplePRClosed }
        , { status := 200, pr := examplePROpen } ] }

/-- A review submitted before the window start (timestamp 5 < 100). -/
def exampleOldReview : FetchedReview :=
  { pr_number := 7
    pr_title := ("Old PR")
    pr_url := ("https://example.invalid/pr/7")
    state := ("APPROVED")
    submitted_at := some 5
    body := ("looks good") }

def exampleReviewInputs : FetchInputs :=
  { emptyInputs with
      review_pages :=
        [ { status := 200
            items :=
              [ { status := 200
                  pr_number := 7
                  pr_title := ("Old PR")
                  pr_url := ("https://example.invalid/pr/7")
                  reviews :=
                    [ { user_login := ("Alice")
                        state := ("APPROVED")
                        submitted_at := some 5
                        body := ("looks good") } ] } ] } ] }

/-- A review with no `submitted_at` at all. -/
def exampleNoDateReview : FetchedReview :=
  { pr_number := 8
    pr_title := ("Ancient PR")
    pr_url := ("https://example.invalid/pr/8")
    state := ("COMMENTED")
    submitted_at := none
    body := ("hm") }

def exampleNoDateInputs : FetchInputs :=
  { emptyInputs with
      review_pages :=
        [ { status := 200
            items :=
              [ { status := 200
                  pr_number := 8
                  pr_title := ("Ancient PR")
                  pr_url := ("https://example.invalid/pr/8")
                  reviews :=
                    [ { user_login := ("alice")
                        state := ("COMMENTED")
                        submitted_at := none
                        body := ("hm") } ] } ] }
        ]
      comment_pages :=
        [ { status := 200
            items :=
              [ { status := 200
                  issue_number := 21
                  issue_title := ("Bug")
                  issue_url := ("https://example.invalid/issue/21")
                  issue_state := ("open")
                  comments :=
                    [ { user_login := ("alice")
                        created_at := none
                        body := ("me too") } ] } ] } ] }

/-- A comment with no `created_at`. -/
def exampleNoDateComment : FetchedComment :=
  { issue_number := 21
    issue_title := ("Bug")
    issue_url := ("https://example.invalid/issue/21")
    issue_state := ("open")
    created_at := none
    body := ("me too") }

/-- A failing reviewed-PRs search page. -/
def exampleFailPage : ReviewSearchPage := { status := 500, items := [] }

/-- Two scraped reports for the same user, as in the specification's
index-summary example. -/
def exampleReportA1 : ScrapedReport :=
  { filename := ("a-repo-2024-01-01.html")
    date := ("2024-01-01")
    username := ("a")
    repo := ("o/r")
    metrics := [(("✅ PRs Merged"), ("3"))] }

def exampleReportA2 : ScrapedReport :=
  { filename := ("a-repo-2024-01-08.html")
    date := ("2024-01-08")
    username := ("a")
    repo := ("o/r")
    metrics := [(("✅ PRs Merged"), ("2"))] }

def exampleReports : List ScrapedReport := [exampleReportA1, exampleReportA2]

/-- A run in which only the reviews fetch fails. -/
def exampleFailInputs : FetchInputs :=
  { examplePRInputs with review_pages := [exampleFailPage] }

/-! ### Characterization of the aggregation -/

def sizesSum (sz : PRSizes) : Nat := sz.xs + sz.s + sz.m + sz.l + sz.xl + sz.xxl

theorem bump_xs (sz : PRSizes) : bumpSize sz ("xs") = { sz with xs := sz.xs + 1 } := rfl

theorem bump_s (sz : PRSizes) : bumpSize sz ("s") = { sz with s := sz.s + 1 } := rfl

theorem bump_m (sz : PRSizes) : bumpSize sz ("m") = { sz with m := sz.m + 1 } := rfl

theorem bump_l (sz : PRSizes) : bumpSize sz ("l") = { sz with l := sz.l + 1 } := rfl

theorem bump_xl (sz : PRSizes) : bumpSize sz ("xl") = { sz with xl := sz.xl + 1 } := rfl

theorem bump_xxl (sz : PRSizes) : bumpSize sz ("xxl") = { sz with xxl := sz.xxl + 1 } := rfl

theorem sizesSum_bump (sz : PRSizes) (c : Nat) :
    sizesSum (bumpSize sz (getPrSize c)) = sizesSum sz + 1 := by
  unfold getPrSize
  split_ifs <;>
    simp [bump_xs, bump_s, bump_m, bump_l, bump_xl, bump_xxl, sizesSum] <;> omega

theorem processPR_opened (st : Stats) (pr : FetchedPR) :
    (processPR st pr).pull_requests_opened = st.pull_requests_opened ++ [mkPRData pr] := by
  unfold processPR
  split_ifs <;> rfl

theorem processPR_merged (st : Stats) (pr : FetchedPR) :
    (processPR st pr).pull_requests_merged =
      st.pull_requests_merged ++ (if truthy pr.merged_at then [mkPRData pr] else []) := by
  unfold processPR
  cases h1 : truthy pr.merged_at <;> cases h2 : pr.state == ("closed") <;> simp [h1, h2]

theorem processPR_closed (st : Stats) (pr : FetchedPR) :
    (processPR st pr).pull_requests_closed =
      st.pull_requests_closed ++
        (if !truthy pr.merged_at && pr.state == ("closed") then [mkPRData pr] else []) := by
  unfold processPR
  cases h1 : truthy pr.merged_at <;> cases h2 : pr.state == ("closed") <;> simp [h1, h2]

theorem processPR_sizes (st : Stats) (pr : FetchedPR) :
    (processPR st pr).pr_sizes =
      bumpSize st.pr_sizes (getPrSize (pr.additions + pr.deletions)) := by
  unfold processPR
  split_ifs <;> rfl

theorem processPR_reviewed (st : Stats) (pr : FetchedPR) :
    (processPR st pr).pull_requests_reviewed = st.pull_requests_reviewed := by
  unfold processPR
  split_ifs <;> rfl

theorem processPR_issues_opened (st : Stats) (pr : FetchedPR) :
    (processPR st pr).issues_opened = st.issues_opened := by
  unfold processPR
  split_ifs <;> rfl

theorem processPR_issue_comments (st : Stats) (pr : FetchedPR) :
    (processPR st pr).issue_comments = st.issue_comments := by
  unfold processPR
  split_ifs <;> rfl

@[simp] theorem processPRs_opened (prs : List FetchedPR) (st : Stats) :
    (processPRs prs st).pull_requests_opened = st.pull_requests_opened ++ prs.map mkPRData := by
  induction prs generalizing st with
  | nil => simp [processPRs]
  | cons p ps ih =>
    have h := ih (processPR st p)
    simp only [processPRs, List.foldl_cons] at h ⊢
    rw [h, processPR_opened]
    simp

@[simp] theorem processPRs_merged (prs : List FetchedPR) (st : Stats) :
    (processPRs prs st).pull_requests_merged =
      st.pull_requests_merged ++ (prs.filter (fun p => truthy p.merged_at)).map mkPRData := by
  induction prs generalizing st with
  | nil => simp [processPRs]
  | cons p ps ih =>
    have h := ih (processPR st p)
    simp only [processPRs, List.foldl_cons] at h ⊢
    rw [h, processPR_merged, List.filter_cons]
    cases hm : truthy p.merged_at <;> simp [hm]

@[simp] theorem processPRs_closed (prs : List FetchedPR) (st : Stats) :
    (processPRs prs st).pull_requests_closed =
      st.pull_requests_closed ++
        (prs.filter (fun p => !truthy p.merged_at && p.state == ("closed"))).map mkPRData := by
  induction prs generalizing st with
  | nil => simp [processPRs]
  | cons p ps ih =>
    have h := ih (processPR st p)
    simp only [processPRs, List.foldl_cons] at h ⊢
    rw [h, processPR_closed, List.filter_cons]
    cases hm : (!truthy p.merged_at && p.state == ("closed")) <;> simp [hm]

@[simp] theorem processPRs_sizesSum (prs : List FetchedPR) (st : Stats) :
    sizesSum (processPRs prs st).pr_sizes = sizesSum st.pr_sizes + prs.length := by
  induction prs generalizing st with
  | nil => simp [processPRs]
  | cons p ps ih =>
    have h := ih (processPR st p)
    simp only [processPRs, List.foldl_cons] at h ⊢
    rw [h, processPR_sizes, sizesSum_bump]
    simp only [List.length_cons]
    omega

@[simp] theorem processPRs_reviewed (prs : List FetchedPR) (st : Stats) :
    (processPRs prs st).pull_requests_reviewed = st.pull_requests_reviewed := by
  induction prs generalizing st with
  | nil => simp [processPRs]
  | cons p ps ih =>
    have h := ih (processPR st p)
    simp only [processPRs, List.foldl_cons] at h ⊢
    rw [h, processPR_reviewed]

@[simp] theorem processPRs_issues_opened (prs : List FetchedPR) (st : Stats) :
    (processPRs prs st).issues_opened = st.issues_opened := by
  induction prs generalizing st with
  | nil => simp [processPRs]
  | cons p ps ih =>
    have h := ih (processPR st p)
    simp only [processPRs, List.foldl_cons] at h ⊢
    rw [h, processPR_issues_opened]

@[simp] theorem processPRs_issue_comments (prs : List FetchedPR) (st : Stats) :
    (processPRs prs st).issue_comments = st.issue_comments := by
  induction prs generalizing st with
  | nil => simp [processPRs]
  | cons p ps ih =>
    have h := ih (processPR st p)
    simp only [processPRs, List.foldl_cons] at h ⊢
    rw [h, processPR_issue_comments]

@[simp] theorem processReviews_opened (since : Nat) (rs : List FetchedReview) (st : Stats) :
    (processReviews since rs st).pull_requests_opened = st.pull_requests_opened := rfl

@[simp] theorem processReviews_merged (since : Nat) (rs : List FetchedReview) (st : Stats) :
    (processReviews since rs st).pull_requests_merged = st.pull_requests_merged := rfl

@[simp] theorem processReviews_closed (since : Nat) (rs : List FetchedReview) (st : Stats) :
    (processReviews since rs st).pull_requests_closed = st.pull_requests_closed := rfl

@[simp] theorem processReviews_sizes (since : Nat) (rs : List FetchedReview) (st : Stats) :
    (processReviews since rs st).pr_sizes = st.pr_sizes := rfl

@[simp] theorem processReviews_issues_opened (since : Nat) (rs : List FetchedReview) (st : Stats) :
    (processReviews since rs st).issues_opened = st.issues_opened := rfl

@[simp] theorem processReviews_issue_comments (since : Nat) (rs : List FetchedReview) (st : Stats) :
    (processReviews since rs st).issue_comments = st.issue_comments := rfl

@[simp] theorem processIssues_opened (issues : List FetchedIssue) (st : Stats) :
    (processIssues issues st).pull_requests_opened = st.pull_requests_opened := rfl

@[simp] theorem processIssues_merged (issues : List FetchedIssue) (st : Stats) :
    (processIssues issues st).pull_requests_merged = st.pull_requests_merged := rfl

@[simp] theorem processIssues_closed (issues : List FetchedIssue) (st : Stats) :
    (processIssues issues st).pull_requests_closed = st.pull_requests_closed := rfl

@[simp] theorem processIssues_sizes (issues : List FetchedIssue) (st : Stats) :
    (processIssues issues st).pr_sizes = st.pr_sizes := rfl

@[simp] theorem processIssues_reviewed (issues : List FetchedIssue) (st : Stats) :
    (processIssues issues st).pull_requests_reviewed = st.pull_requests_reviewed := rfl

@[simp] theorem processIssues_total_reviews (issues : List FetchedIssue) (st : Stats) :
    (processIssues issues st).total_reviews_given = st.total_reviews_given := rfl

@[simp] theorem processIssues_unique_prs (issues : List FetchedIssue) (st : Stats) :
    (processIssues issues st).unique_prs_reviewed = st.unique_prs_reviewed := rfl

@[simp] theorem processIssues_issue_comments (issues : List FetchedIssue) (st : Stats) :
    (processIssues issues st).issue_comments = st.issue_comments := rfl

@[simp] theorem processClosedIssues_opened (issues : List FetchedIssue) (st : Stats) :
    (processClosedIssues issues st).pull_requests_opened = st.pull_requests_opened := rfl

@[simp] theorem processClosedIssues_merged (issues : List FetchedIssue) (st : Stats) :
    (processClosedIssues issues st).pull_requests_merged = st.pull_requests_merged := rfl

@[simp] theorem processClosedIssues_closed (issues : List FetchedIssue) (st : Stats) :
    (processClosedIssues issues st).pull_requests_closed = st.pull_requests_closed := rfl

@[simp] theorem processClosedIssues_sizes (issues : List FetchedIssue) (st : Stats) :
    (processClosedIssues issues st).pr_sizes = st.pr_sizes := rfl

@[simp] theorem processClosedIssues_reviewed (issues : List FetchedIssue) (st : Stats) :
    (processClosedIssues issues st).pull_requests_reviewed = st.pull_requests_reviewed := rfl

@[simp] theorem processClosedIssues_total_reviews (issues : List FetchedIssue) (st : Stats) :
    (processClosedIssues issues st).total_reviews_given = st.total_reviews_given := rfl

@[simp] theorem processClosedIssues_unique_prs (issues : List FetchedIssue) (st : Stats) :
    (processClosedIssues issues st).unique_prs_reviewed = st.unique_prs_reviewed := rfl

@[simp] theorem processClosedIssues_issues_opened (issues : List FetchedIssue) (st : Stats) :
    (processClosedIssues issues st).issues_opened = st.issues_opened := rfl

@[simp] theorem processClosedIssues_issue_comments (issues : List FetchedIssue) (st : Stats) :
    (processClosedIssues issues st).issue_comments = st.issue_comments := rfl

@[simp] theorem processComments_opened (since : Nat) (cs : List FetchedComment) (st : Stats) :
    (processComments since cs st).pull_requests_opened = st.pull_requests_opened := rfl

@[simp] theorem processComments_merged (since : Nat) (cs : List FetchedComment) (st : Stats) :
    (processComments since cs st).pull_requests_merged = st.pull_requests_merged := rfl

@[simp] theorem processComments_closed (since : Nat) (cs : List FetchedComment) (st : Stats) :
    (processComments since cs st).pull_requests_closed = st.pull_requests_closed := rfl

@[simp] theorem processComments_sizes (since : Nat) (cs : List FetchedComment) (st : Stats) :
    (processComments since cs st).pr_sizes = st.pr_sizes := rfl

@[simp] theorem processComments_reviewed (since : Nat) (cs : List FetchedComment) (st : Stats) :
    (processComments since cs st).pull_requests_reviewed = st.pull_requests_reviewed := rfl

@[simp] theorem processComments_total_reviews (since : Nat) (cs : List FetchedComment) (st : Stats) :
    (processComments since cs st).total_reviews_given = st.total_reviews_given := rfl

@[simp] theorem processComments_unique_prs (since : Nat) (cs : List FetchedComment) (st : Stats) :
    (processComments since cs st).unique_prs_reviewed = st.unique_prs_reviewed := rfl

@[simp] theorem processComments_issues_opened (since : Nat) (cs : List FetchedComment) (st : Stats) :
    (processComments since cs st).issues_opened = st.issues_opened := rfl

@[simp] theorem processCommits_opened (cs : List FetchedCommit) (st : Stats) :
    (processCommits cs st).pull_requests_opened = st.pull_requests_opened := rfl

@[simp] theorem processCommits_merged (cs : List FetchedCommit) (st : Stats) :
    (processCommits cs st).pull_requests_merged = st.pull_requests_merged := rfl

@[simp] theorem processCommits_closed (cs : List FetchedCommit) (st : Stats) :
    (processCommits cs st).pull_requests_closed = st.pull_requests_closed := rfl

@[simp] theorem processCommits_sizes (cs : List FetchedCommit) (st : Stats) :
    (processCommits cs st).pr_sizes = st.pr_sizes := rfl

@[simp] theorem processCommits_reviewed (cs : List FetchedCommit) (st : Stats) :
    (processCommits cs st).pull_requests_reviewed = st.pull_requests_reviewed := rfl

@[simp] theorem processCommits_total_reviews (cs : List FetchedCommit) (st : Stats) :
    (processCommits cs st).total_reviews_given = st.total_reviews_given := rfl

@[simp] theorem processCommits_unique_prs (cs : List FetchedCommit) (st : Stats) :
    (processCommits cs st).unique_prs_reviewed = st.unique_prs_reviewed := rfl

@[simp] theorem processCommits_issues_opened (cs : List FetchedCommit) (st : Stats) :
    (processCommits cs st).issues_opened = st.issues_opened := rfl

@[simp] theorem processCommits_issue_comments (cs : List FetchedCommit) (st : Stats) :
    (processCommits cs st).issue_comments = st.issue_comments := rfl

/-- Field-level description of a whole `analyze_activity` run, PR fields. -/
theorem analyze_opened (u : String) (since : Nat) (inp : FetchInputs) :
    (analyze_activity u since inp).pull_requests_opened =
      (fetch_user_prs inp.pr_search_status inp.pr_details).map mkPRData := by
  unfold analyze_activity
  simp [initStats]

theorem analyze_merged (u : String) (since : Nat) (inp : FetchInputs) :
    (analyze_activity u since inp).pull_requests_merged =
      ((fetch_user_prs inp.pr_search_status inp.pr_details).filter
        (fun p => truthy p.merged_at)).map mkPRData := by
  unfold analyze_activity
  simp [initStats]

theorem analyze_closed (u : String) (since : Nat) (inp : FetchInputs) :
    (analyze_activity u since inp).pull_requests_closed =
      ((fetch_user_prs inp.pr_search_status inp.pr_details).filter
        (fun p => !truthy p.merged_at && p.state == ("closed"))).map mkPRData := by
  unfold analyze_activity
  simp [initStats]

theorem analyze_sizesSum (u : String) (since : Nat) (inp : FetchInputs) :
    sizesSum (analyze_activity u since inp).pr_sizes =
      (fetch_user_prs inp.pr_search_status inp.pr_details).length := by
  unfold analyze_activity
  simp only [processCommits_sizes, processComments_sizes, processClosedIssues_sizes,
    processIssues_sizes, processReviews_sizes, processPRs_sizesSum]
  simp [initStats, sizesSum]

theorem analyze_reviewed (u : String) (since : Nat) (inp : FetchInputs) :
    (analyze_activity u since inp).pull_requests_reviewed =
      ((fetch_user_reviews u inp.review_pages).filter (keepReview since)).map mkReviewData := by
  unfold analyze_activity
  simp [processReviews, initStats]

theorem analyze_total_reviews (u : String) (since : Nat) (inp : FetchInputs) :
    (analyze_activity u since inp).total_reviews_given =
      (analyze_activity u since inp).pull_requests_reviewed.length := by
  unfold analyze_activity
  simp [processReviews, initStats]

theorem analyze_unique_prs (u : String) (since : Nat) (inp : FetchInputs) :
    (analyze_activity u since inp).unique_prs_reviewed =
      ((analyze_activity u since inp).pull_requests_reviewed.map
        (fun r => r.pr_number)).dedup.length := by
  unfold analyze_activity
  simp [processReviews, initStats]

theorem analyze_issues_opened (u : String) (since : Nat) (inp : FetchInputs) :
    (analyze_activity u since inp).issues_opened =
      (fetch_user_issues inp.issues_status inp.issues_items).map mkIssueData := by
  unfold analyze_activity
  simp [processIssues, initStats]

theorem analyze_issue_comments (u : String) (since : Nat) (inp : FetchInputs) :
    (analyze_activity u since inp).issue_comments =
      ((fetch_user_issue_comments u inp.comment_pages).filter
        (keepComment since)).map mkCommentData := by
  unfold analyze_activity
  simp [processComments, initStats]

/-! ### Claims about the report generator -/

/-- C1: for every integer `total_changes ≥ 0`, `_get_pr_size` returns exactly
one of the six values `xs, s, m, l, xl, xxl`, and the six thresholds
partition the non-negative integers without gaps or overlaps
(`<10→xs, <30→s, <100→m, <500→l, <1000→xl, else→xxl`); in particular
`9→xs, 10→s, 29→s, 30→m, 999→xl, 1000→xxl`. -/
theorem claim_C1 :
    (∀ n : Nat,
      (getPrSize n = ("xs") ∨ getPrSize n = ("s") ∨ getPrSize n = ("m") ∨
        getPrSize n = ("l") ∨ getPrSize n = ("xl") ∨ getPrSize n = ("xxl")) ∧
      (getPrSize n = ("xs") ↔ n < 10) ∧
      (getPrSize n = ("s") ↔ 10 ≤ n ∧ n < 30) ∧
      (getPrSize n = ("m") ↔ 30 ≤ n ∧ n < 100) ∧
      (getPrSize n = ("l") ↔ 100 ≤ n ∧ n < 500) ∧
      (getPrSize n = ("xl") ↔ 500 ≤ n ∧ n < 1000) ∧
      (getPrSize n = ("xxl") ↔ 1000 ≤ n)) ∧
    getPrSize 9 = ("xs") ∧ getPrSize 10 = ("s") ∧ getPrSize 29 = ("s") ∧
    getPrSize 30 = ("m") ∧ getPrSize 999 = ("xl") ∧ getPrSize 1000 = ("xxl") := by
  refine ⟨fun n => ?_, by decide, by decide, by decide, by decide, by decide, by decide⟩
  unfold getPrSize
  split_ifs <;>
    refine ⟨by simp, ?_, ?_, ?_, ?_, ?_, ?_⟩ <;> simp_all <;> omega

/-- C1 witness: the partition instantiated at `29`. -/
theorem claim_C1_witness : getPrSize 29 = ("s") ∧ 10 ≤ 29 ∧ 29 < 30 :=
  ⟨(claim_C1.1 29).2.2.1.mpr (by omega), by omega⟩

/-- C2: every fetched authored PR is recorded under "opened"; additionally
under "merged" iff a merge timestamp is present, else under "closed" iff its
state is `closed`; an open PR appears only under "opened", and no PR object
is ever in both the merged and the closed buckets. -/
theorem claim_C2 (username : String) (since : Nat) (inp : FetchInputs) :
    (analyze_activity username since inp).pull_requests_opened =
        (fetch_user_prs inp.pr_search_status inp.pr_details).map mkPRData ∧
    (analyze_activity username since inp).pull_requests_merged =
        ((fetch_user_prs inp.pr_search_status inp.pr_details).filter
          (fun p => truthy p.merged_at)).map mkPRData ∧
    (analyze_activity username since inp).pull_requests_closed =
        ((fetch_user_prs inp.pr_search_status inp.pr_details).filter
          (fun p => !truthy p.merged_at && p.state == ("closed"))).map mkPRData ∧
    (∀ d, d ∈ (analyze_activity username since inp).pull_requests_merged →
      d ∉ (analyze_activity username since inp).pull_requests_closed) ∧
    (∀ pr ∈ fetch_user_prs inp.pr_search_status inp.pr_details,
      truthy pr.merged_at = false → (pr.state == ("closed")) = false →
        mkPRData pr ∉ (analyze_activity username since inp).pull_requests_merged ∧
        mkPRData pr ∉ (analyze_activity username since inp).pull_requests_closed) := by
  refine ⟨analyze_opened username since inp, analyze_merged username since inp,
    analyze_closed username since inp, ?_, ?_⟩
  · intro d hd hc
    rw [analyze_merged] at hd
    rw [analyze_closed] at hc
    obtain ⟨p, hp, hpd⟩ := List.mem_map.mp hd
    obtain ⟨q, hq, hqd⟩ := List.mem_map.mp hc
    rw [List.mem_filter] at hp hq
    have hpq : p.merged_at = q.merged_at :=
      congrArg PRData.merged_at (hpd.trans hqd.symm)
    have h1 : truthy p.merged_at = true := by simpa using hp.2
    have h2 : truthy q.merged_at = false := by
      have := hq.2
      simp only [Bool.and_eq_true, Bool.not_eq_true'] at this
      exact this.1
    rw [hpq, h2] at h1
    exact Bool.false_ne_true h1
  · intro pr hpr h1 h2
    constructor
    · intro hmem
      rw [analyze_merged] at hmem
      obtain ⟨q, hq, hqd⟩ := List.mem_map.mp hmem
      rw [List.mem_filter] at hq
      have hpq : q.merged_at = pr.merged_at := congrArg PRData.merged_at hqd
      have : truthy q.merged_at = true := by simpa using hq.2
      rw [hpq, h1] at this
      exact Bool.false_ne_true this
    · intro hmem
      rw [analyze_closed] at hmem
      obtain ⟨q, hq, hqd⟩ := List.mem_map.mp hmem
      rw [List.mem_filter] at hq
      have hst : q.state = pr.state := congrArg PRData.state hqd
      have : (q.state == ("closed")) = true := by
        have := hq.2
        simp only [Bool.and_eq_true] at this
        exact this.2
      rw [hst, h2] at this
      exact Bool.false_ne_true this

/-- C2 witness: in a concrete run with a merged, a closed and an open PR,
the merged PR's record is not in the closed bucket. -/
theorem claim_C2_witness :
    mkPRData examplePRMerged ∉
      (analyze_activity ("alice") 0 examplePRInputs).pull_requests_closed :=
  (claim_C2 ("alice") 0 examplePRInputs).2.2.2.1 (mkPRData examplePRMerged) (by decide)

/-- C3: for every completed aggregation run, the sum of the six
size-distribution counters equals the number of PRs in the "opened"
category. -/
theorem claim_C3 (username : String) (since : Nat) (inp : FetchInputs) :
    (analyze_activity username since inp).pr_sizes.xs +
      (analyze_activity username since inp).pr_sizes.s +
      (analyze_activity username since inp).pr_sizes.m +
      (analyze_activity username since inp).pr_sizes.l +
      (analyze_activity username since inp).pr_sizes.xl +
      (analyze_activity username since inp).pr_sizes.xxl =
    (analyze_activity username since inp).pull_requests_opened.length := by
  have h1 := analyze_sizesSum username since inp
  simp only [sizesSum] at h1
  rw [analyze_opened, List.length_map]
  exact h1

/-- C4: a fetched review is retained only if its submission timestamp is on
or after the window start; retained reviews are kept per submission,
`unique_prs_reviewed` is the number of distinct `pr_number` values across
the retained reviews, and `unique_prs_reviewed ≤ total_reviews_given`. -/
theorem claim_C4 (username : String) (since : Nat) (inp : FetchInputs) :
    (analyze_activity username since inp).pull_requests_reviewed =
      ((fetch_user_reviews username inp.review_pages).filter
        (keepReview since)).map mkReviewData ∧
    (∀ r ∈ fetch_user_reviews username inp.review_pages, ∀ t,
      r.submitted_at = some t → t < since →
        mkReviewData r ∉ (analyze_activity username since inp).pull_requests_reviewed) ∧
    (∀ r : FetchedReview, keepReview since r = true ↔
      (r.submitted_at = none ∨ ∃ t, r.submitted_at = some t ∧ since ≤ t)) ∧
    (analyze_activity username since inp).total_reviews_given =
      (analyze_activity username since inp).pull_requests_reviewed.length ∧
    (analyze_activity username since inp).unique_prs_reviewed =
      ((analyze_activity username since inp).pull_requests_reviewed.map
        (fun r => r.pr_number)).dedup.length ∧
    (analyze_activity username since inp).unique_prs_reviewed ≤
      (analyze_activity username since inp).total_reviews_given := by
  refine ⟨analyze_reviewed username since inp, ?_, ?_,
    analyze_total_reviews username since inp, analyze_unique_prs username since inp, ?_⟩
  · intro r hr t ht hlt hmem
    rw [analyze_reviewed] at hmem
    obtain ⟨r', hr', heq⟩ := List.mem_map.mp hmem
    rw [List.mem_filter] at hr'
    have hsub : r'.submitted_at = r.submitted_at :=
      congrArg ReviewData.submitted_at heq
    have hk := hr'.2
    rw [keepReview, hsub, ht] at hk
    simp only [decide_eq_true_eq] at hk
    omega
  · intro r
    cases h : r.submitted_at with
    | none => simp [keepReview, h]
    | some t =>
      simp only [keepReview, h, decide_eq_true_eq]
      constructor
      · intro hle
        exact Or.inr ⟨t, rfl, hle⟩
      · rintro (hc | ⟨t', ht', hle⟩)
        · exact absurd hc (by simp)
        · injection ht' with ht''
          omega
  · rw [analyze_unique_prs, analyze_total_reviews]
    have h := (List.dedup_sublist
      ((analyze_activity username since inp).pull_requests_reviewed.map
        (fun r => r.pr_number))).length_le
    simpa using h

/-- C4 witness: a review submitted at time 5 is excluded from a run whose
window starts at time 100. -/
theorem claim_C4_witness :
    mkReviewData exampleOldReview ∉
      (analyze_activity ("alice") 100 exampleReviewInputs).pull_requests_reviewed :=
  (claim_C4 ("alice") 100 exampleReviewInputs).2.1
    exampleOldReview (by decide) 5 rfl (by decide)

/-- C5: a non-success response for a category's fetch yields an empty
collection for that category; the (total) aggregation function still
produces a statistics value, and every other category's output is a
function of that category's own responses alone.  In particular, when only
the reviews fetch fails, `total_reviews_given = 0` while the categories
whose fetches succeeded are populated exactly as usual. -/
theorem claim_C5 (username : String) (since : Nat) (inp : FetchInputs)
    (p : ReviewSearchPage) (rest : List ReviewSearchPage) (hp : ¬ p.status = 200) :
    fetch_user_reviews username (p :: rest) = [] ∧
    (analyze_activity username since
      { inp with review_pages := p :: rest }).total_reviews_given = 0 ∧
    (analyze_activity username since
      { inp with review_pages := p :: rest }).pull_requests_reviewed = [] ∧
    (analyze_activity username since
      { inp with review_pages := p :: rest }).unique_prs_reviewed = 0 ∧
    (analyze_activity username since
      { inp with review_pages := p :: rest }).pull_requests_opened =
      (fetch_user_prs inp.pr_search_status inp.pr_details).map mkPRData ∧
    (analyze_activity username since
      { inp with review_pages := p :: rest }).issues_opened =
      (fetch_user_issues inp.issues_status inp.issues_items).map mkIssueData ∧
    (analyze_activity username since
      { inp with review_pages := p :: rest }).issue_comments =
      ((fetch_user_issue_comments username inp.comment_pages).filter
        (keepComment since)).map mkCommentData ∧
    (∀ s ds, ¬ s = 200 → fetch_user_prs s ds = []) ∧
    (∀ s its, ¬ s = 200 → fetch_user_issues s its = []) ∧
    (∀ s its, ¬ s = 200 → fetch_user_commits s its = []) ∧
    (∀ s u t cs, ¬ s = 200 → fetch_user_closed_issues u t s cs = []) := by
  have hrev : fetch_user_reviews username (p :: rest) = [] := by
    simp [fetch_user_reviews, fetchReviewsLoop, hp]
  refine ⟨hrev, ?_, ?_, ?_, ?_, ?_, ?_, ?_, ?_, ?_, ?_⟩
  · rw [analyze_total_reviews, analyze_reviewed]
    simp [hrev]
  · rw [analyze_reviewed]
    simp [hrev]
  · rw [analyze_unique_prs, analyze_reviewed]
    simp [hrev]
  · rw [analyze_opened]
  · rw [analyze_issues_opened]
  · rw [analyze_issue_comments]
  · intro s ds hs
    simp [fetch_user_prs, hs]
  · intro s its hs
    simp [fetch_user_issues, hs]
  · intro s its hs
    simp [fetch_user_commits, hs]
  · intro s u t cs hs
    simp [fetch_user_closed_issues, hs]

/-- C5 witness: a concrete run in which only the reviews page request fails
(status 500) still has its three fetched PRs in the opened bucket and zero
reviews. -/
theorem claim_C5_witness :
    (analyze_activity ("alice") 0 exampleFailInputs).total_reviews_given = 0 ∧
    (analyze_activity ("alice") 0 exampleFailInputs).pull_requests_opened =
      (fetch_user_prs examplePRInputs.pr_search_status examplePRInputs.pr_details).map
        mkPRData :=
  ⟨(claim_C5 ("alice") 0 examplePRInputs exampleFailPage [] (by decide)).2.1,
   (claim_C5 ("alice") 0 examplePRInputs exampleFailPage [] (by decide)).2.2.2.2.1⟩

/-- C9: a fetched review whose `submitted_at` is absent or null is retained
regardless of the window start, and likewise a fetched issue comment whose
`created_at` is absent or null: a missing timestamp bypasses the date
filter. -/
theorem claim_C9 (username : String) (since : Nat) (inp : FetchInputs) :
    (∀ r ∈ fetch_user_reviews username inp.review_pages, r.submitted_at = none →
      mkReviewData r ∈ (analyze_activity username since inp).pull_requests_reviewed) ∧
    (∀ c ∈ fetch_user_issue_comments username inp.comment_pages, c.created_at = none →
      mkCommentData c ∈ (analyze_activity username since inp).issue_comments) ∧
    (∀ r : FetchedReview, r.submitted_at = none → keepReview since r = true) ∧
    (∀ c : FetchedComment, c.created_at = none → keepComment since c = true) := by
  refine ⟨?_, ?_, ?_, ?_⟩
  · intro r hr hnone
    rw [analyze_reviewed]
    exact List.mem_map_of_mem _
      (List.mem_filter.mpr ⟨hr, by simp [keepReview, hnone]⟩)
  · intro c hc hnone
    rw [analyze_issue_comments]
    exact List.mem_map_of_mem _
      (List.mem_filter.mpr ⟨hc, by simp [keepComment, hnone]⟩)
  · intro r h
    simp [keepReview, h]
  · intro c h
    simp [keepComment, h]

/-- C9 witness: a review and a comment with no timestamp are retained in a
run whose window starts at time 1000. -/
theorem claim_C9_witness :
    mkReviewData exampleNoDateReview ∈
      (analyze_activity ("alice") 1000 exampleNoDateInputs).pull_requests_reviewed ∧
    mkCommentData exampleNoDateComment ∈
      (analyze_activity ("alice") 1000 exampleNoDateInputs).issue_comments :=
  ⟨(claim_C9 ("alice") 1000 exampleNoDateInputs).1 exampleNoDateReview (by decide) rfl,
   (claim_C9 ("alice") 1000 exampleNoDateInputs).2.1 exampleNoDateComment (by decide) rfl⟩

/-! ### String-level facts -/

theorem data_append (a b : String) : (a ++ b).data = a.data ++ b.data := rfl

theorem mk_data (s : String) : String.mk s.data = s := rfl

theorem str_ne_empty (s : String) (h : ¬ s.data = []) : ¬ s = ("") :=
  fun hh => h (by rw [hh])

theorem dropWhile_eq_self_of_head (l : List Char)
    (h : ∀ c ∈ l, Char.isWhitespace c = false) :
    l.dropWhile Char.isWhitespace = l := by
  cases l with
  | nil => rfl
  | cons c cs =>
    rw [List.dropWhile_cons]
    simp [h c (List.mem_cons_self c cs)]

theorem pystrip_eq_self (s : String) (h : ∀ c ∈ s.data, c.isWhitespace = false) :
    pystrip s = s := by
  unfold pystrip
  rw [dropWhile_eq_self_of_head s.data h,
    dropWhile_eq_self_of_head s.data.reverse (fun c hc => h c (List.mem_reverse.mp hc)),
    List.reverse_reverse]

theorem pylstripAt_append (u : String) (h : ¬ u.data.head? = some '@') :
    pylstripAt (("@") ++ u) = u := by
  cases u with
  | mk l =>
    unfold pylstripAt
    rw [data_append]
    show String.mk (('@' :: l).dropWhile (fun c => decide (c = '@'))) = String.mk l
    rw [List.dropWhile_cons]
    simp only [decide_True, if_true]
    cases l with
    | nil => rfl
    | cons c cs =>
      have hc : ¬ c = '@' := by
        intro hh
        apply h
        rw [hh]
        rfl
      rw [List.dropWhile_cons]
      simp [hc]

theorem pysplitAux_no_sep (sep : Char) (l : List Char) :
    ∀ acc, ¬ sep ∈ l → pysplitAux sep l acc = [acc.reverse ++ l] := by
  induction l with
  | nil => intro acc _; simp [pysplitAux]
  | cons c cs ih =>
    intro acc h
    have hc : ¬ c = sep := fun hh => h (hh ▸ List.mem_cons_self c cs)
    rw [pysplitAux]
    simp only [hc, if_false]
    rw [ih (c :: acc) (fun hm => h (List.mem_cons_of_mem c hm))]
    simp

theorem pysplitAux_sep_split (sep : Char) (a : List Char) :
    ∀ (b acc : List Char), ¬ sep ∈ a →
      pysplitAux sep (a ++ sep :: b) acc = (acc.reverse ++ a) :: pysplitAux sep b [] := by
  induction a with
  | nil =>
    intro b acc _
    rw [List.nil_append, pysplitAux]
    simp
  | cons c cs ih =>
    intro b acc h
    have hc : ¬ c = sep := fun hh => h (hh ▸ List.mem_cons_self c cs)
    rw [List.cons_append, pysplitAux]
    simp only [hc, if_false]
    rw [ih b (c :: acc) (fun hm => h (List.mem_cons_of_mem c hm))]
    simp

theorem pysplit_pair (a b : List Char) (ha : ¬ '/' ∈ a) (hb : ¬ '/' ∈ b) :
    pysplit '/' (a ++ '/' :: b) = [a, b] := by
  unfold pysplit
  rw [pysplitAux_sep_split '/' a b [] ha, pysplitAux_no_sep '/' b [] hb]
  simp

theorem digitToChar_props (d : Nat) (h : d < 10) :
    (digitToChar d).isDigit = true ∧ (digitToChar d).isWhitespace = false ∧
      ¬ digitToChar d = '/' ∧ ¬ digitToChar d = '@' ∧ ¬ digitToChar d = '-' ∧
      (digitToChar d).toNat = 48 + d := by
  interval_cases d <;> exact (by decide)

theorem natToString_digits (n : Nat) : ∀ c ∈ (natToString n).data, c.isDigit = true := by
  unfold natToString
  split_ifs with h
  · intro c hc
    have : c = '0' := by simpa using hc
    subst this
    decide
  · intro c hc
    obtain ⟨d, hd, rfl⟩ := List.mem_map.mp hc
    exact (digitToChar_props d (Nat.digits_lt_base (by norm_num) (List.mem_reverse.mp hd))).1

theorem natToString_no_ws (n : Nat) : ∀ c ∈ (natToString n).data, c.isWhitespace = false := by
  unfold natToString
  split_ifs with h
  · intro c hc
    have : c = '0' := by simpa using hc
    subst this
    decide
  · intro c hc
    obtain ⟨d, hd, rfl⟩ := List.mem_map.mp hc
    exact (digitToChar_props d
      (Nat.digits_lt_base (by norm_num) (List.mem_reverse.mp hd))).2.1

theorem natToString_ne_empty (n : Nat) : ¬ natToString n = ("") := by
  unfold natToString
  split_ifs with h
  · decide
  · intro hc
    have hdata : ((Nat.digits 10 n).reverse.map digitToChar) = [] := congrArg String.data hc
    rw [List.map_eq_nil_iff, List.reverse_eq_nil_iff] at hdata
    exact (Nat.digits_ne_nil_iff_ne_zero.mpr h) hdata

theorem pystrip_natToString (n : Nat) : pystrip (natToString n) = natToString n :=
  pystrip_eq_self _ (natToString_no_ws n)

theorem foldl_digits_append (l : List Nat) (a d : Nat) :
    (l ++ [d]).foldl (fun x y => x * 10 + y) a = l.foldl (fun x y => x * 10 + y) a * 10 + d := by
  simp [List.foldl_append]

theorem foldl_digits_reverse (n : Nat) :
    ((Nat.digits 10 n).reverse).foldl (fun x y => x * 10 + y) 0 = n := by
  induction n using Nat.strong_induction_on with
  | _ n ih =>
    rcases Nat.eq_zero_or_pos n with h | h
    · subst h; simp
    · rw [Nat.digits_def' (by norm_num : (1 : Nat) < 10) h, List.reverse_cons,
        foldl_digits_append, ih (n / 10) (Nat.div_lt_self h (by norm_num))]
      omega

theorem foldl_digit_chars (l : List Nat) :
    ∀ a, (∀ d ∈ l, d < 10) →
      l.foldl (fun x d => x * 10 + ((digitToChar d).toNat - 48)) a =
        l.foldl (fun x d => x * 10 + d) a := by
  induction l with
  | nil => intro a _; rfl
  | cons d ds ih =>
    intro a h
    simp only [List.foldl_cons]
    rw [(digitToChar_props d (h d (List.mem_cons_self d ds))).2.2.2.2.2]
    have h48 : 48 + d - 48 = d := by omega
    rw [h48, ih _ (fun x hx => h x (List.mem_cons_of_mem d hx))]

theorem parseDigitsList_natToString (n : Nat) :
    parseDigitsList ((natToString n).data) = n := by
  unfold natToString
  split_ifs with h
  · subst h; decide
  · show parseDigitsList (((Nat.digits 10 n).reverse).map digitToChar) = n
    unfold parseDigitsList
    rw [List.foldl_map,
      foldl_digit_chars _ 0
        (fun d hd => Nat.digits_lt_base (by norm_num) (List.mem_reverse.mp hd)),
      foldl_digits_reverse]

theorem digit_only_natToString (n : Nat) : digit_only (natToString n) = natToString n := by
  unfold digit_only
  rw [List.filter_eq_self.mpr (natToString_digits n)]

theorem pyInt_natToString (n : Nat) : pyInt (natToString n) = (n : Int) := by
  have hd := natToString_digits n
  have hp := parseDigitsList_natToString n
  unfold pyInt
  split
  · next rest heq =>
    exfalso
    have hmem : '-' ∈ (natToString n).data := by
      rw [heq]; exact List.mem_cons_self _ _
    have := hd '-' hmem
    simp at this
  · next =>
    rw [hp]

/-! ### Parser-state lemmas -/

theorem handle_data_noflags (st : ReportMetricsParser) (h : flagsClear st) (d : String) :
    handle_data st d = st := by
  obtain ⟨h1, h2, h3, h4, h5⟩ := h
  simp [handle_data, h1, h2, h4, h5]

theorem handle_endtag_noflags (st : ReportMetricsParser) (h : flagsClear st) (tag : String) :
    handle_endtag st tag = st := by
  obtain ⟨h1, h2, h3, h4, h5⟩ := h
  simp [handle_endtag, h1, h2, h3, h4, h5]

theorem handle_starttag_inert (st : ReportMetricsParser) (h : flagsClear st)
    (tag : String) (attrs : List (String × String))
    (hm : markerStart (HtmlEvent.startTag tag attrs) = false) :
    handle_starttag st tag attrs = st := by
  obtain ⟨h1, h2, h3, h4, h5⟩ := h
  by_cases htag : tag = ("div")
  · by_cases hr : dictGet attrs ("class") = some ("repo")
    · exfalso; simp [markerStart, htag, hr] at hm
    · by_cases hu : dictGet attrs ("class") = some ("username")
      · exfalso; simp [markerStart, htag, hu] at hm
      · by_cases hc : dictGet attrs ("class") = some ("metric-card")
        · exfalso; simp [markerStart, htag, hc] at hm
        · simp [handle_starttag, hr, hu, hc, h3]
  · simp [handle_starttag, htag, h3]

theorem stepList_nil (st : ReportMetricsParser) : stepList st [] = st := rfl

theorem stepList_cons (st : ReportMetricsParser) (e : HtmlEvent) (es : List HtmlEvent) :
    stepList st (e :: es) = stepList (stepEvent st e) es := rfl

theorem stepList_append (st : ReportMetricsParser) (l1 l2 : List HtmlEvent) :
    stepList st (l1 ++ l2) = stepList (stepList st l1) l2 := by
  simp [stepList, List.foldl_append]

theorem stepList_inert (es : List HtmlEvent) (st : ReportMetricsParser)
    (h : flagsClear st) (hes : inertEvents es = true) : stepList st es = st := by
  induction es with
  | nil => rfl
  | cons e rest ih =>
    rw [inertEvents, List.all_cons, Bool.and_eq_true] at hes
    have hstep : stepEvent st e = st := by
      cases e with
      | startTag tag attrs =>
        exact handle_starttag_inert st h tag attrs (by simpa using hes.1)
      | endTag tag => exact handle_endtag_noflags st h tag
      | dataText d => exact handle_data_noflags st h d
    rw [stepList_cons, hstep]
    exact ih hes.2

theorem stepList_metricCard (st : ReportMetricsParser) (h : flagsClear st)
    (attrs : List (String × String)) (hattrs : dictGet attrs ("class") = some ("metric-card"))
    (label value : String)
    (hl : pystrip label = label) (hl0 : ¬ label = (""))
    (hv : pystrip value = value) (hv0 : ¬ value = (""))
    (descr : Option String) :
    stepList st (metricCardEvents attrs label value descr) =
      { st with metrics := dictInsert st.metrics label value, current_label := none } := by
  obtain ⟨h1, h2, h3, h4, h5⟩ := h
  have hml : dictGet [(("class"), ("metric-label"))] ("class") = some ("metric-label") := by
    simp [dictGet]
  have hmv : dictGet [(("class"), ("metric-value"))] ("class") = some ("metric-value") := by
    simp [dictGet]
  have hsd : dictGet [(("class"), ("size-description"))] ("class") =
      some ("size-description") := by
    simp [dictGet]
  cases descr <;>
    simp [metricCardEvents, stepList, stepEvent, handle_starttag, handle_endtag,
      handle_data, hattrs, hml, hmv, hsd, h1, h2, h3, h4, h5, hl, hl0, hv, hv0, truthy]

theorem stepList_bodyHeader (st : ReportMetricsParser) (h : flagsClear st)
    (owner repo username metaText : String)
    (howner : ∀ c ∈ owner.data, c.isWhitespace = false ∧ ¬ c = '/')
    (hrepo : ∀ c ∈ repo.data, c.isWhitespace = false ∧ ¬ c = '/')
    (huser : ∀ c ∈ username.data, c.isWhitespace = false)
    (huser2 : ¬ username.data.head? = some '@') :
    stepList st (bodyHeaderEvents owner repo username metaText) =
      { st with repo_owner := some owner, repo_name := some repo,
                username := some username } := by
  obtain ⟨h1, h2, h3, h4, h5⟩ := h
  have hdr : ((owner ++ ("/") ++ repo)).data = owner.data ++ '/' :: repo.data := by
    rw [data_append, data_append, List.append_assoc]
    rfl
  have hstrip_r : pystrip (owner ++ ("/") ++ repo) = owner ++ ("/") ++ repo := by
    apply pystrip_eq_self
    intro c hc
    rw [hdr] at hc
    rcases List.mem_append.mp hc with hc | hc
    · exact (howner c hc).1
    · rcases List.mem_cons.mp hc with hc | hc
      · subst hc; decide
      · exact (hrepo c hc).1
  have hne_r : ¬ (owner ++ ("/") ++ repo) = ("") := by
    apply str_ne_empty
    rw [hdr]
    intro hh
    exact absurd (congrArg List.length hh) (by simp)
  have hsplit : pysplit '/' (owner.data ++ '/' :: repo.data) = [owner.data, repo.data] :=
    pysplit_pair owner.data repo.data
      (fun hm => (howner '/' hm).2 rfl) (fun hm => (hrepo '/' hm).2 rfl)
  have hdu : ((("@") ++ username)).data = '@' :: username.data := by
    rw [data_append]
    rfl
  have hstrip_u : pystrip (("@") ++ username) = ("@") ++ username := by
    apply pystrip_eq_self
    intro c hc
    rw [hdu] at hc
    rcases List.mem_cons.mp hc with hc | hc
    · subst hc; decide
    · exact huser c hc
  have hne_u : ¬ (("@") ++ username) = ("") := by
    apply str_ne_empty
    rw [hdu]
    intro hh
    exact absurd (congrArg List.length hh) (by simp)
  have hlstrip : pylstripAt (("@") ++ username) = username := pylstripAt_append username huser2
  have hcont : dictGet [(("class"), ("container"))] ("class") = some ("container") := by
    simp [dictGet]
  have hhead : dictGet [(("class"), ("header"))] ("class") = some ("header") := by
    simp [dictGet]
  have hrep : dictGet [(("class"), ("repo"))] ("class") = some ("repo") := by
    simp [dictGet]
  have husr : dictGet [(("class"), ("username"))] ("class") = some ("username") := by
    simp [dictGet]
  have hmeta : dictGet [(("class"), ("meta"))] ("class") = some ("meta") := by
    simp [dictGet]
  simp [bodyHeaderEvents, stepList, stepEvent, handle_starttag, handle_endtag, handle_data,
    hcont, hhead, hrep, husr, hmeta, h1, h2, h3, h4, h5,
    hstrip_r, hne_r, hsplit, hstrip_u, hne_u, hlstrip, mk_data]

theorem pystrip_append_nat (p : String) (hp : ∀ c ∈ p.data, c.isWhitespace = false) (n : Nat) :
    pystrip (p ++ natToString n) = p ++ natToString n := by
  apply pystrip_eq_self
  intro c hc
  rw [data_append] at hc
  rcases List.mem_append.mp hc with hc | hc
  · exact hp c hc
  · exact natToString_no_ws n c hc

theorem eq_empty_of_data_nil (s : String) (h : s.data = []) : s = ("") := by
  cases s with
  | mk l =>
    have hl : l = [] := h
    subst hl
    rfl

theorem append_nat_ne_empty (p : String) (n : Nat) : ¬ (p ++ natToString n) = ("") := by
  apply str_ne_empty
  rw [data_append]
  intro hh
  rcases List.append_eq_nil.mp hh with ⟨_, h2⟩
  exact natToString_ne_empty n (eq_empty_of_data_nil _ h2)

theorem stepList_topGrid (st : ReportMetricsParser) (h : flagsClear st) (s : Stats) :
    stepList st (topMetricsGridEvents s) =
      { st with
        metrics :=
          dictInsert (dictInsert (dictInsert (dictInsert st.metrics
            ("✅ PRs Merged") (natToString s.pull_requests_merged.length))
            ("📈 Lines Added") (("+") ++ natToString s.total_additions))
            ("📉 Lines Deleted") (("-") ++ natToString s.total_deletions))
            ("💾 Commits in PRs") (natToString s.total_commits_in_prs),
        current_label := none } := by
  obtain ⟨h1, h2, h3, h4, h5⟩ := h
  have d1 : dictGet [(("class"), ("metrics-grid"))] ("class") = some ("metrics-grid") := by
    simp [dictGet]
  have d2 : dictGet [(("class"), ("metric-card")), (("style"), ("background: yellow"))]
      ("class") = some ("metric-card") := by
    simp [dictGet]
  have d3 : dictGet [(("class"), ("metric-card")), (("style"), ("background: transparent"))]
      ("class") = some ("metric-card") := by
    simp [dictGet]
  have d4 : dictGet [(("class"), ("metric-label"))] ("class") = some ("metric-label") := by
    simp [dictGet]
  have d5 : dictGet [(("class"), ("metric-value"))] ("class") = some ("metric-value") := by
    simp [dictGet]
  have v1 := pystrip_natToString s.pull_requests_merged.length
  have v2 := pystrip_append_nat ("+") (by decide) s.total_additions
  have v3 := pystrip_append_nat ("-") (by decide) s.total_deletions
  have v4 := pystrip_natToString s.total_commits_in_prs
  have n1 := natToString_ne_empty s.pull_requests_merged.length
  have n2 := append_nat_ne_empty ("+") s.total_additions
  have n3 := append_nat_ne_empty ("-") s.total_deletions
  have n4 := natToString_ne_empty s.total_commits_in_prs
  simp [topMetricsGridEvents, metricCardEvents, stepList, stepEvent, handle_starttag,
    handle_endtag, handle_data, d1, d2, d3, d4, d5, h1, h2, h3, h4, h5,
    v1, v2, v3, v4, n1, n2, n3, n4, truthy,
    (by decide : pystrip ("✅ PRs Merged") = ("✅ PRs Merged")),
    (by decide : pystrip ("📈 Lines Added") = ("📈 Lines Added")),
    (by decide : pystrip ("📉 Lines Deleted") = ("📉 Lines Deleted")),
    (by decide : pystrip ("💾 Commits in PRs") = ("💾 Commits in PRs"))]

theorem stepList_collab (st : ReportMetricsParser) (h : flagsClear st) (s : Stats) :
    stepList st (collabSectionEvents s) =
      { st with
        metrics :=
          dictInsert (dictInsert (dictInsert (dictInsert st.metrics
            ("👀 Reviews Given") (natToString s.total_reviews_given))
            ("🐛 Issues Opened") (natToString s.issues_opened.length))
            ("✅ Issues Closed") (natToString s.issues_closed.length))
            ("💬 Issue Comments") (natToString s.issue_comments.length),
        current_label := none } := by
  obtain ⟨h1, h2, h3, h4, h5⟩ := h
  have d0 : dictGet [(("class"), ("section"))] ("class") = some ("section") := by
    simp [dictGet]
  have d0t : dictGet [(("class"), ("section-title"))] ("class") = some ("section-title") := by
    simp [dictGet]
  have d0p : dictGet
      [(("style"), ("color: #6c757d; margin-bottom: 20px; font-size: 0.95em;"))]
      ("class") = none := by
    simp [dictGet]
  have d1 : dictGet [(("class"), ("metrics-grid"))] ("class") = some ("metrics-grid") := by
    simp [dictGet]
  have d2 : dictGet [(("class"), ("metric-card"))] ("class") = some ("metric-card") := by
    simp [dictGet]
  have d4 : dictGet [(("class"), ("metric-label"))] ("class") = some ("metric-label") := by
    simp [dictGet]
  have d5 : dictGet [(("class"), ("metric-value"))] ("class") = some ("metric-value") := by
    simp [dictGet]
  have d6 : dictGet [(("class"), ("size-description"))] ("class") =
      some ("size-description") := by
    simp [dictGet]
  have v1 := pystrip_natToString s.total_reviews_given
  have v2 := pystrip_natToString s.issues_opened.length
  have v3 := pystrip_natToString s.issues_closed.length
  have v4 := pystrip_natToString s.issue_comments.length
  have n1 := natToString_ne_empty s.total_reviews_given
  have n2 := natToString_ne_empty s.issues_opened.length
  have n3 := natToString_ne_empty s.issues_closed.length
  have n4 := natToString_ne_empty s.issue_comments.length
  simp [collabSectionEvents, metricCardEvents, stepList, stepEvent, handle_starttag,
    handle_endtag, handle_data, d0, d0t, d0p, d1, d2, d4, d5, d6, h1, h2, h3, h4, h5,
    v1, v2, v3, v4, n1, n2, n3, n4, truthy,
    (by decide : pystrip ("👀 Reviews Given") = ("👀 Reviews Given")),
    (by decide : pystrip ("🐛 Issues Opened") = ("🐛 Issues Opened")),
    (by decide : pystrip ("✅ Issues Closed") = ("✅ Issues Closed")),
    (by decide : pystrip ("💬 Issue Comments") = ("💬 Issue Comments"))]

theorem headDoc_inert (cssText username : String) :
    inertEvents (headDocEvents cssText username) = true := rfl

theorem sizeSection_inert (s : Stats) : inertEvents (sizeSectionEvents s) = true := rfl

theorem closing_inert : inertEvents closingEvents = true := rfl

theorem get_merged_from_report_metrics (n : Nat) (v2 v3 v4 v5 v6 v7 v8 : String) :
    get_metric_value_int
      [(("✅ PRs Merged"), natToString n), (("📈 Lines Added"), v2),
       (("📉 Lines Deleted"), v3), (("💾 Commits in PRs"), v4),
       (("👀 Reviews Given"), v5), (("🐛 Issues Opened"), v6),
       (("✅ Issues Closed"), v7), (("💬 Issue Comments"), v8)] ("PRs Merged") = (n : Int) := by
  simp [get_metric_value_int,
    (by decide : containsSub ("PRs Merged") ("✅ PRs Merged") = true),
    digit_only_natToString, natToString_ne_empty n, pyInt_natToString]

/-- C6: rendering a statistics object to the HTML markup format and then
scraping the rendered document with the report-metrics parser recovers the
same username, the same owner/repo identity, and the same merged-PR count —
the rendered metric labels still match the scraper's label patterns.  The
identity strings are assumed well formed (no whitespace, no `/` in owner or
repo, no leading `@` in the username), which GitHub identifiers always
satisfy; `tail` ranges over the report's optional per-record sections, all
of whose tags carry non-marker classes. -/
theorem claim_C6 (cssText metaText owner repo username : String) (stats : Stats)
    (tail : List HtmlEvent)
    (howner : ∀ c ∈ owner.data, c.isWhitespace = false ∧ ¬ c = '/')
    (hrepo : ∀ c ∈ repo.data, c.isWhitespace = false ∧ ¬ c = '/')
    (huser : ∀ c ∈ username.data, c.isWhitespace = false)
    (huser2 : ¬ username.data.head? = some '@')
    (htail : inertEvents tail = true) :
    (feed (reportHtmlEvents cssText metaText owner repo username stats tail)).username =
        some username ∧
    (feed (reportHtmlEvents cssText metaText owner repo username stats tail)).repo_owner =
        some owner ∧
    (feed (reportHtmlEvents cssText metaText owner repo username stats tail)).repo_name =
        some repo ∧
    get_metric_value_int
        (feed (reportHtmlEvents cssText metaText owner repo username stats tail)).metrics
        ("PRs Merged") = (stats.pull_requests_merged.length : Int) := by
  have hfc0 : flagsClear initParser := ⟨rfl, rfl, rfl, rfl, rfl⟩
  have hstate : feed (reportHtmlEvents cssText metaText owner repo username stats tail) =
      { in_repo_div := false, in_username_div := false, in_metric_card := false,
        in_metric_label := false, in_metric_value := false, current_label := none,
        metrics :=
          [(("✅ PRs Merged"), natToString stats.pull_requests_merged.length),
           (("📈 Lines Added"), ("+") ++ natToString stats.total_additions),
           (("📉 Lines Deleted"), ("-") ++ natToString stats.total_deletions),
           (("💾 Commits in PRs"), natToString stats.total_commits_in_prs),
           (("👀 Reviews Given"), natToString stats.total_reviews_given),
           (("🐛 Issues Opened"), natToString stats.issues_opened.length),
           (("✅ Issues Closed"), natToString stats.issues_closed.length),
           (("💬 Issue Comments"), natToString stats.issue_comments.length)],
        username := some username, repo_owner := some owner, repo_name := some repo } := by
    unfold feed reportHtmlEvents
    rw [stepList_append, stepList_append, stepList_append, stepList_append,
      stepList_append, stepList_append]
    rw [stepList_inert (headDocEvents cssText username) initParser hfc0
      (headDoc_inert cssText username)]
    rw [stepList_bodyHeader initParser hfc0 owner repo username metaText howner hrepo
      huser huser2]
    rw [stepList_topGrid]
    on_goal 2 => exact ⟨rfl, rfl, rfl, rfl, rfl⟩
    rw [stepList_inert (sizeSectionEvents stats)]
    on_goal 2 => exact ⟨rfl, rfl, rfl, rfl, rfl⟩
    on_goal 2 => exact sizeSection_inert stats
    rw [stepList_collab]
    on_goal 2 => exact ⟨rfl, rfl, rfl, rfl, rfl⟩
    rw [stepList_inert tail]
    on_goal 2 => exact ⟨rfl, rfl, rfl, rfl, rfl⟩
    on_goal 2 => exact htail
    rw [stepList_inert closingEvents]
    on_goal 2 => exact ⟨rfl, rfl, rfl, rfl, rfl⟩
    on_goal 2 => exact closing_inert
    simp [dictInsert, initParser]
  rw [hstate]
  exact ⟨rfl, rfl, rfl, get_merged_from_report_metrics _ _ _ _ _ _ _ _⟩

/-- C6 witness: a concrete render/scrape round trip. -/
theorem claim_C6_witness :
    (feed (reportHtmlEvents ("css") ("meta") ("octo") ("hello") ("alice")
        initStats [])).username = some ("alice") ∧
    get_metric_value_int
        (feed (reportHtmlEvents ("css") ("meta") ("octo") ("hello") ("alice")
          initStats [])).metrics ("PRs Merged") =
      ((initStats.pull_requests_merged.length : Nat) : Int) :=
  ⟨(claim_C6 ("css") ("meta") ("octo") ("hello") ("alice") initStats []
      (by decide) (by decide) (by decide) (by decide) rfl).1,
   (claim_C6 ("css") ("meta") ("octo") ("hello") ("alice") initStats []
      (by decide) (by decide) (by decide) (by decide) rfl).2.2.2⟩

/-! ### The index summary loop -/

theorem find_store_self (m : List (String × UserSummary)) (u : String) (s : UserSummary) :
    summaryFind (summaryStore m u s) u = s := by
  induction m with
  | nil => simp [summaryStore, summaryFind, List.find?]
  | cons kv rest ih =>
    rw [summaryStore]
    by_cases hk : kv.1 = u
    · rw [if_pos hk]
      simp [summaryFind, List.find?_cons]
    · rw [if_neg hk]
      unfold summaryFind at ih ⊢
      rw [List.find?_cons]
      simp only [hk, decide_False]
      exact ih

theorem find_store_other (m : List (String × UserSummary)) (u v : String) (s : UserSummary)
    (h : ¬ u = v) : summaryFind (summaryStore m v s) u = summaryFind m u := by
  induction m with
  | nil =>
    have hd : (decide (v = u)) = false := decide_eq_false (fun hh => h hh.symm)
    simp [summaryStore, summaryFind, List.find?, hd]
  | cons kv rest ih =>
    rw [summaryStore]
    by_cases hk : kv.1 = v
    · rw [if_pos hk]
      unfold summaryFind
      rw [List.find?_cons, List.find?_cons]
      have h1 : decide ((((v : String), s) : String × UserSummary).1 = u) = false := by
        simp
        exact fun hh => h hh.symm
      have h2 : decide (kv.1 = u) = false := by
        simp
        rw [hk]
        exact fun hh => h hh.symm
      rw [h1, h2]
    · rw [if_neg hk]
      unfold summaryFind at ih ⊢
      rw [List.find?_cons, List.find?_cons]
      cases hdec : decide (kv.1 = u) with
      | true => rfl
      | false => exact ih

theorem find_step_self (m : List (String × UserSummary)) (r : ScrapedReport) :
    summaryFind (summaryStep m r) r.username =
      { prs_merged := (summaryFind m r.username).prs_merged +
          get_metric_value_int r.metrics ("PRs Merged"),
        date := maxDateUpd (summaryFind m r.username).date r.date } := by
  unfold summaryStep
  rw [find_store_self]

theorem find_step_other (m : List (String × UserSummary)) (r : ScrapedReport) (u : String)
    (h : ¬ u = r.username) : summaryFind (summaryStep m r) u = summaryFind m u := by
  unfold summaryStep
  exact find_store_other m u r.username _ h

theorem user_summary_loop (rs : List ScrapedReport) :
    ∀ (m : List (String × UserSummary)) (u : String),
      summaryFind (rs.foldl summaryStep m) u =
        { prs_merged := (summaryFind m u).prs_merged +
            ((rs.filter (fun r => r.username == u)).map
              (fun r => get_metric_value_int r.metrics ("PRs Merged"))).sum,
          date := (rs.filter (fun r => r.username == u)).foldl
            (fun c r => maxDateUpd c r.date) (summaryFind m u).date } := by
  induction rs with
  | nil => intro m u; simp
  | cons r rest ih =>
    intro m u
    rw [List.foldl_cons, ih (summaryStep m r) u, List.filter_cons]
    by_cases h : r.username = u
    · subst h
      rw [find_step_self]
      simp [add_assoc]
    · have hb : (r.username == u) = false := by
        simp [h]
      rw [find_step_other m r u (fun hh => h hh.symm)]
      simp [hb]

theorem pyStrLt_cons_iff (a0 b0 : Char) (as bs : List Char) :
    pyStrLt (a0 :: as) (b0 :: bs) = true ↔
      a0.toNat < b0.toNat ∨ (a0.toNat = b0.toNat ∧ pyStrLt as bs = true) := by
  rw [pyStrLt]
  split_ifs with h1 h2
  · simpa using Or.inl h1
  · simp only [Bool.false_eq_true, false_iff]
    rintro (hc | ⟨he, _⟩) <;> omega
  · have he : a0.toNat = b0.toNat := by omega
    simp [he, h1]

theorem pyStrLt_irrefl (l : List Char) : pyStrLt l l = false := by
  induction l with
  | nil => rfl
  | cons c cs ih => simp [pyStrLt, ih]

theorem pyStrLt_trans (a : List Char) :
    ∀ b c : List Char, pyStrLt a b = true → pyStrLt b c = true → pyStrLt a c = true := by
  induction a with
  | nil =>
    intro b c hab hbc
    cases b with
    | nil => simp [pyStrLt] at hab
    | cons b0 bs =>
      cases c with
      | nil => simp [pyStrLt] at hbc
      | cons c0 cs => simp [pyStrLt]
  | cons a0 as ih =>
    intro b c hab hbc
    cases b with
    | nil => simp [pyStrLt] at hab
    | cons b0 bs =>
      cases c with
      | nil => simp [pyStrLt] at hbc
      | cons c0 cs =>
        rw [pyStrLt_cons_iff] at hab hbc ⊢
        rcases hab with hab | ⟨hab1, hab2⟩
        · rcases hbc with hbc | ⟨hbc1, hbc2⟩
          · exact Or.inl (by omega)
          · exact Or.inl (by omega)
        · rcases hbc with hbc | ⟨hbc1, hbc2⟩
          · exact Or.inl (by omega)
          · exact Or.inr ⟨by omega, ih bs cs hab2 hbc2⟩

theorem pyStrLt_split (a : List Char) :
    ∀ b c : List Char, pyStrLt a c = true → pyStrLt a b = true ∨ pyStrLt b c = true := by
  induction a with
  | nil =>
    intro b c hac
    cases b with
    | nil => exact Or.inr hac
    | cons b0 bs => exact Or.inl (by simp [pyStrLt])
  | cons a0 as ih =>
    intro b c hac
    cases c with
    | nil => simp [pyStrLt] at hac
    | cons c0 cs =>
      cases b with
      | nil => exact Or.inr (by simp [pyStrLt])
      | cons b0 bs =>
        rw [pyStrLt_cons_iff] at hac
        rw [pyStrLt_cons_iff, pyStrLt_cons_iff]
        rcases hac with hac | ⟨hac1, hac2⟩
        · by_cases hb : a0.toNat < b0.toNat
          · exact Or.inl (Or.inl hb)
          · exact Or.inr (Or.inl (by omega))
        · by_cases hb : a0.toNat < b0.toNat
          · exact Or.inl (Or.inl hb)
          · by_cases hb2 : b0.toNat < c0.toNat
            · exact Or.inr (Or.inl hb2)
            · rcases ih bs cs hac2 with h | h
              · exact Or.inl (Or.inr ⟨by omega, h⟩)
              · exact Or.inr (Or.inr ⟨by omega, h⟩)

theorem pyLe_refl (a : String) : pyLe a a = true := by
  rw [pyLe, pyLt, pyStrLt_irrefl]
  rfl

theorem pyLe_of_not_lt (a b : String) (h : ¬ pyLt a b = true) : pyLe b a = true := by
  rw [pyLe]
  cases hc : pyLt a b with
  | false => rfl
  | true => exact absurd hc h

theorem pyLe_trans (a b c : String) (h1 : pyLe a b = true) (h2 : pyLe b c = true) :
    pyLe a c = true := by
  rw [pyLe] at h1 h2 ⊢
  cases hc : pyLt c a with
  | false => rfl
  | true =>
    exfalso
    rcases pyStrLt_split c.data b.data a.data hc with h | h
    · rw [pyLt, h] at h2
      simp at h2
    · rw [pyLt, h] at h1
      simp at h1

theorem pyLe_of_lt_le (a b c : String) (h1 : pyLt a b = true) (h2 : pyLe b c = true) :
    pyLe a c = true := by
  rw [pyLe] at h2 ⊢
  cases hc : pyLt c a with
  | false => rfl
  | true =>
    exfalso
    have : pyLt c b = true := pyStrLt_trans c.data a.data b.data hc h1
    rw [this] at h2
    simp at h2

theorem foldl_maxDate_some (ds : List String) :
    ∀ c : String, ∃ mx, ds.foldl (fun acc d => maxDateUpd acc d) (some c) = some mx ∧
      (mx = c ∨ mx ∈ ds) ∧ pyLe c mx = true ∧ ∀ d ∈ ds, pyLe d mx = true := by
  induction ds with
  | nil => intro c; exact ⟨c, rfl, Or.inl rfl, pyLe_refl c, by simp⟩
  | cons d ds ih =>
    intro c
    rw [List.foldl_cons]
    by_cases h : pyLt c d = true
    · have hupd : maxDateUpd (some c) d = some d := by simp [maxDateUpd, h]
      rw [hupd]
      obtain ⟨mx, h1, h2, h3, h4⟩ := ih d
      refine ⟨mx, h1, ?_, ?_, ?_⟩
      · rcases h2 with h2 | h2
        · exact Or.inr (h2 ▸ List.mem_cons_self d ds)
        · exact Or.inr (List.mem_cons_of_mem d h2)
      · exact pyLe_of_lt_le c d mx h h3
      · intro x hx
        rcases List.mem_cons.mp hx with hx | hx
        · exact hx ▸ h3
        · exact h4 x hx
    · have hupd : maxDateUpd (some c) d = some c := by simp [maxDateUpd, h]
      rw [hupd]
      obtain ⟨mx, h1, h2, h3, h4⟩ := ih c
      refine ⟨mx, h1, ?_, h3, ?_⟩
      · rcases h2 with h2 | h2
        · exact Or.inl h2
        · exact Or.inr (List.mem_cons_of_mem d h2)
      · intro x hx
        rcases List.mem_cons.mp hx with hx | hx
        · subst hx
          exact pyLe_trans x c mx (pyLe_of_not_lt c x h) h3
        · exact h4 x hx

theorem foldl_maxDate_none (ds : List String) (h : ¬ ds = []) :
    ∃ mx, ds.foldl (fun acc d => maxDateUpd acc d) none = some mx ∧
      mx ∈ ds ∧ ∀ d ∈ ds, pyLe d mx = true := by
  cases ds with
  | nil => exact absurd rfl h
  | cons d rest =>
    rw [List.foldl_cons]
    have hupd : maxDateUpd none d = some d := rfl
    rw [hupd]
    obtain ⟨mx, h1, h2, h3, h4⟩ := foldl_maxDate_some rest d
    refine ⟨mx, h1, ?_, ?_⟩
    · rcases h2 with h2 | h2
      · exact h2 ▸ List.mem_cons_self d rest
      · exact List.mem_cons_of_mem d h2
    · intro x hx
      rcases List.mem_cons.mp hx with hx | hx
      · exact hx ▸ h3
      · exact h4 x hx

/-- C7: the per-user summary row shows `most_recent_date` equal to the
maximum of that user's report dates under lexicographic string comparison
and `total_prs_merged` equal to the sum of that user's per-report merged-PR
metrics. -/
theorem claim_C7 (reports : List ScrapedReport) (u : String)
    (hu : u ∈ reports.map (fun r => r.username)) :
    (summaryFind (user_summary reports) u).prs_merged =
      ((reports.filter (fun r => r.username == u)).map
        (fun r => get_metric_value_int r.metrics ("PRs Merged"))).sum ∧
    (∃ mx, (summaryFind (user_summary reports) u).date = some mx ∧
      mx ∈ (reports.filter (fun r => r.username == u)).map (fun r => r.date) ∧
      ∀ d ∈ (reports.filter (fun r => r.username == u)).map (fun r => r.date),
        pyLe d mx = true) := by
  have hloop := user_summary_loop reports [] u
  have hfind : summaryFind [] u = { prs_merged := 0, date := none } := rfl
  rw [hfind] at hloop
  unfold user_summary
  rw [hloop]
  constructor
  · simp
  · have hne : ¬ (reports.filter (fun r => r.username == u)).map (fun r => r.date) = [] := by
      obtain ⟨r, hr, hru⟩ := List.mem_map.mp hu
      have : r ∈ reports.filter (fun r => r.username == u) := by
        rw [List.mem_filter]
        exact ⟨hr, by simp [hru]⟩
      intro hc
      rw [List.map_eq_nil_iff] at hc
      rw [hc] at this
      exact (List.not_mem_nil r) this
    have hfold : (reports.filter (fun r => r.username == u)).foldl
        (fun c r => maxDateUpd c r.date) none =
        ((reports.filter (fun r => r.username == u)).map (fun r => r.date)).foldl
          (fun c d => maxDateUpd c d) none := by
      rw [List.foldl_map]
    obtain ⟨mx, h1, h2, h3⟩ := foldl_maxDate_none _ hne
    exact ⟨mx, by simp only [hfold]; exact h1, h2, h3⟩

/-- C7 witness: the spec's example — two reports for user `a` dated
2024-01-01 (3 merged) and 2024-01-08 (2 merged) summarize to date
2024-01-08 and 5 merged PRs. -/
theorem claim_C7_witness :
    (summaryFind (user_summary exampleReports) ("a")).prs_merged = 5 ∧
    (summaryFind (user_summary exampleReports) ("a")).date = some ("2024-01-08") := by
  have h := claim_C7 exampleReports ("a") (by decide)
  refine ⟨?_, by decide⟩
  rw [h.1]
  decide

/-! ### Metric-label matching and numeric extraction -/

theorem isSubList_iff (pat : List Char) :
    ∀ l : List Char, isSubList pat l = true ↔ pat <:+: l := by
  intro l
  induction l with
  | nil =>
    rw [isSubList]
    simp [List.isEmpty_iff]
  | cons c cs ih =>
    rw [isSubList]
    rw [Bool.or_eq_true]
    rw [List.isPrefixOf_iff_prefix, ih]
    exact (List.infix_cons_iff).symm

/-- C8: metric-label matching is substring containment against the raw
label text with the first containing match in insertion order winning, and
numeric extraction strips every character that is not a digit, sign or
comma (digits only in the summary variant), defaulting to `"0"` / `0` when
nothing numeric remains. -/
theorem claim_C8 (metrics : List (String × String)) (pat : String) :
    (get_metric_value metrics pat =
      (match metrics.find? (fun kv => containsSub pat kv.1) with
       | none => ("0")
       | some kv => if clean_value kv.2 = ("") then ("0") else clean_value kv.2)) ∧
    (get_metric_value_int metrics pat =
      (match metrics.find? (fun kv => containsSub pat kv.1) with
       | none => (0 : Int)
       | some kv => if digit_only kv.2 = ("") then 0 else pyInt (digit_only kv.2))) ∧
    (∀ a b : String, containsSub a b = true ↔ a.data <:+: b.data) ∧
    (∀ s : String, ∀ c : Char, c ∈ (clean_value s).data ↔
      c ∈ s.data ∧ (c.isDigit || c == '+' || c == '-' || c == ',') = true) := by
  refine ⟨?_, ?_, fun a b => isSubList_iff a.data b.data, fun s c => ?_⟩
  · induction metrics with
    | nil => rfl
    | cons kv rest ih =>
      obtain ⟨k, v⟩ := kv
      rw [get_metric_value, List.find?_cons]
      cases h : containsSub pat k with
      | true => simp [h]
      | false => simp only [h, Bool.false_eq_true, if_false, cond_false]; exact ih
  · induction metrics with
    | nil => rfl
    | cons kv rest ih =>
      obtain ⟨k, v⟩ := kv
      rw [get_metric_value_int, List.find?_cons]
      cases h : containsSub pat k with
      | true => simp [h]
      | false => simp only [h, Bool.false_eq_true, if_false, cond_false]; exact ih
  · show c ∈ s.data.filter _ ↔ _
    rw [List.mem_filter]

/-- C8 witness: a label-to-value mapping with two labels containing the
pattern resolves to the first in insertion order, cleaned of everything but
digits, signs and commas. -/
theorem claim_C8_witness :
    get_metric_value
      [(("other"), ("9")), (("✅ PRs Merged"), ("be-3,2!")), (("x PRs Merged"), ("7"))]
      ("PRs Merged") = ("-3,2") := by
  rw [(claim_C8
    [(("other"), ("9")), (("✅ PRs Merged"), ("be-3,2!")), (("x PRs Merged"), ("7"))]
    ("PRs Merged")).1]
  decide

theorem pyInt_nonneg_of_digits (s : String) (h : ∀ c ∈ s.data, c.isDigit = true) :
    0 ≤ pyInt s := by
  unfold pyInt
  split
  · next rest heq =>
    exfalso
    have hm : '-' ∈ s.data := by
      rw [heq]
      exact List.mem_cons_self _ _
    have := h '-' hm
    simp at this
  · next => exact Int.natCast_nonneg _

theorem get_metric_value_int_nonneg (metrics : List (String × String)) (pat : String) :
    0 ≤ get_metric_value_int metrics pat := by
  induction metrics with
  | nil => simp [get_metric_value_int]
  | cons kv rest ih =>
    obtain ⟨k, v⟩ := kv
    rw [get_metric_value_int]
    cases h : containsSub pat k with
    | false => simp only [h, Bool.false_eq_true, if_false, cond_false]; exact ih
    | true =>
      simp only [h, if_true, cond_true]
      split_ifs with h2
      · exact le_refl 0
      · apply pyInt_nonneg_of_digits
        intro c hc
        exact (List.mem_filter.mp hc).2

/-- C10: the summary extraction strips every non-digit character (minus
signs and commas included) before integer conversion, so every per-report
contribution and every per-user `total_prs_merged` is non-negative. -/
theorem claim_C10 (metrics : List (String × String)) (pat : String)
    (reports : List ScrapedReport) (u : String) :
    (∀ s : String, ¬ '-' ∈ (digit_only s).data ∧ ¬ ',' ∈ (digit_only s).data ∧
      ∀ c ∈ (digit_only s).data, c.isDigit = true) ∧
    0 ≤ get_metric_value_int metrics pat ∧
    0 ≤ (summaryFind (user_summary reports) u).prs_merged := by
  refine ⟨?_, get_metric_value_int_nonneg metrics pat, ?_⟩
  · intro s
    refine ⟨?_, ?_, ?_⟩
    · intro hm
      have := (List.mem_filter.mp hm).2
      simp at this
    · intro hm
      have := (List.mem_filter.mp hm).2
      simp at this
    · intro c hc
      exact (List.mem_filter.mp hc).2
  · have hloop := user_summary_loop reports [] u
    have hfind : summaryFind [] u = { prs_merged := 0, date := none } := rfl
    rw [hfind] at hloop
    unfold user_summary
    rw [hloop]
    simp only [zero_add]
    apply List.sum_nonneg
    intro x hx
    obtain ⟨r, _, rfl⟩ := List.mem_map.mp hx
    exact get_metric_value_int_nonneg r.metrics ("PRs Merged")

/-- C10 witness: a value carrying a minus sign and commas still contributes
a non-negative summary count. -/
theorem claim_C10_witness :
    0 ≤ get_metric_value_int [(("✅ PRs Merged"), ("-1,234"))] ("PRs Merged") ∧
    0 ≤ (summaryFind (user_summary exampleReports) ("a")).prs_merged :=
  ⟨(claim_C10 [(("✅ PRs Merged"), ("-1,234"))] ("PRs Merged") exampleReports ("a")).2.1,
   (claim_C10 [(("✅ PRs Merged"), ("-1,234"))] ("PRs Merged") exampleReports ("a")).2.2⟩

end ReportGit
